import Mathlib

/-!
Shallow embedding of the Xilinx SDFEC driver core
(src/drivers/misc/xilinx_sdfec.c) and proofs about it.

Machine integers are modelled as Nat with explicit reduction modulo 2^32
where the C code's u32 arithmetic can wrap.  Hardware is modelled as a
register map (Nat -> Nat) together with a trace of effective register
writes (iowrite32 calls that actually reach hardware) and a trace of
register reads (ioread32 calls).  dev_err logging is modelled as a list
of abstract log events.
-/

namespace XilinxSdfec

/-- Reduce a natural number modulo 2^32, the behaviour of C u32 arithmetic. -/
def u32 (x : Nat) : Nat := x % 4294967296

/-! Register map constants, from the defines in the source file. -/

def XSDFEC_AXI_WR_PROTECT_ADDR : Nat := 0x00000
def XSDFEC_CODE_WR_PROTECT_ADDR : Nat := 0x00004
def XSDFEC_ACTIVE_ADDR : Nat := 0x00008
def XSDFEC_AXIS_WIDTH_ADDR : Nat := 0x0000c
def XSDFEC_AXIS_ENABLE_ADDR : Nat := 0x00010
def XSDFEC_AXIS_ENABLE_MASK : Nat := 0x0003F
def XSDFEC_FEC_CODE_ADDR : Nat := 0x00014
def XSDFEC_ORDER_ADDR : Nat := 0x00018
def XSDFEC_ISR_MASK : Nat := 0x0003F
def XSDFEC_ISR_ADDR : Nat := 0x0001c
def XSDFEC_IER_ADDR : Nat := 0x00020
def XSDFEC_IDR_ADDR : Nat := 0x00024
def XSDFEC_IMR_ADDR : Nat := 0x00028
def XSDFEC_ECC_ISR_SBE : Nat := 0x7FF
def XSDFEC_ECC_ISR_MBE : Nat := 0x3FF800
def XSDFEC_ECC_ISR_MASK : Nat := XSDFEC_ECC_ISR_SBE ||| XSDFEC_ECC_ISR_MBE
def XSDFEC_ERROR_MAX_THRESHOLD : Nat := 100
def XSDFEC_ECC_ISR_ADDR : Nat := 0x0002c
def XSDFEC_ECC_IER_ADDR : Nat := 0x00030
def XSDFEC_ECC_IDR_ADDR : Nat := 0x00034
def XSDFEC_ECC_IMR_ADDR : Nat := 0x00038
def XSDFEC_BYPASS_ADDR : Nat := 0x0003c
def XSDFEC_TURBO_ADDR : Nat := 0x00100
def XSDFEC_LDPC_CODE_REG0_ADDR_BASE : Nat := 0x02000
def XSDFEC_LDPC_CODE_REG0_ADDR_HIGH : Nat := 0x021fc
def XSDFEC_LDPC_CODE_REG1_ADDR_BASE : Nat := 0x02004
def XSDFEC_LDPC_CODE_REG1_ADDR_HIGH : Nat := 0x02200
def XSDFEC_LDPC_CODE_REG2_ADDR_BASE : Nat := 0x02008
def XSDFEC_LDPC_CODE_REG2_ADDR_HIGH : Nat := 0x02204
def XSDFEC_LDPC_CODE_REG3_ADDR_BASE : Nat := 0x0200c
def XSDFEC_LDPC_CODE_REG3_ADDR_HIGH : Nat := 0x02208

def XSDFEC_WRITE_PROTECT_ENABLE : Nat := 1
def XSDFEC_WRITE_PROTECT_DISABLE : Nat := 0
def XSDFEC_IS_ACTIVITY_SET : Nat := 0x1
def XSDFEC_TURBO_SCALE_MASK : Nat := 0xF
def XSDFEC_TURBO_SCALE_BIT_POS : Nat := 8

def XSDFEC_LDPC_REG_JUMP : Nat := 0x10
def XSDFEC_REG0_N_MASK : Nat := 0x0000FFFF
def XSDFEC_REG0_N_LSB : Nat := 0
def XSDFEC_REG0_K_MASK : Nat := 0x7fff0000
def XSDFEC_REG0_K_LSB : Nat := 16
def XSDFEC_REG1_PSIZE_MASK : Nat := 0x000001ff
def XSDFEC_REG1_NO_PACKING_MASK : Nat := 0x00000400
def XSDFEC_REG1_NO_PACKING_LSB : Nat := 10
def XSDFEC_REG1_NM_MASK : Nat := 0x000ff800
def XSDFEC_REG1_NM_LSB : Nat := 11
def XSDFEC_REG2_NLAYERS_MASK : Nat := 0x000001FF
def XSDFEC_REG2_NLAYERS_LSB : Nat := 0
def XSDFEC_REG2_NNMQC_MASK : Nat := 0x000FFE00
def XSDFEC_REG2_NMQC_LSB : Nat := 9
def XSDFEC_REG2_NORM_TYPE_MASK : Nat := 0x00100000
def XSDFEC_REG2_NORM_TYPE_LSB : Nat := 20
def XSDFEC_REG2_SPECIAL_QC_MASK : Nat := 0x00200000
def XSDFEC_REG2_SPEICAL_QC_LSB : Nat := 21
def XSDFEC_REG2_NO_FINAL_PARITY_MASK : Nat := 0x00400000
def XSDFEC_REG2_NO_FINAL_PARITY_LSB : Nat := 22
def XSDFEC_REG2_MAX_SCHEDULE_MASK : Nat := 0x01800000
def XSDFEC_REG2_MAX_SCHEDULE_LSB : Nat := 23
def XSDFEC_REG3_LA_OFF_LSB : Nat := 8
def XSDFEC_REG3_QC_OFF_LSB : Nat := 16
def XSDFEC_SC_TABLE_DEPTH : Nat := 0x3fc
def XSDFEC_REG_WIDTH_JUMP : Nat := 4
def XSDFEC_LA_TABLE_DEPTH : Nat := 0xFFC
def XSDFEC_QC_TABLE_DEPTH : Nat := 0x7FFC

/-- Modelled from the spec: the three fixed table base addresses
(XSDFEC_LDPC_SC_TABLE_ADDR_BASE and friends) come from the uapi header
uapi/misc/xilinx_sdfec.h, which is part of this repository but not under
src/.  The spec only says each table has its own fixed base address; the
exact values do not matter to any claim, only that they are fixed. -/
def XSDFEC_LDPC_SC_TABLE_ADDR_BASE : Nat := 0x10000

/-- Modelled from the spec: fixed base address of the layer-address table,
see XSDFEC_LDPC_SC_TABLE_ADDR_BASE. -/
def XSDFEC_LDPC_LA_TABLE_ADDR_BASE : Nat := 0x18000

/-- Modelled from the spec: fixed base address of the quantization-code
table, see XSDFEC_LDPC_SC_TABLE_ADDR_BASE. -/
def XSDFEC_LDPC_QC_TABLE_ADDR_BASE : Nat := 0x20000

/-- Device states, enum xsdfec_state (uapi header). -/
inductive XsdfecState where
  | init
  | started
  | stopped
  | needsReset
deriving DecidableEq, Repr

/-- Modelled from the spec: enum xsdfec_code from the uapi header (not under
src/).  The spec gives the family set Invalid | LDPC | Turbo; the numeric
values are those the source relies on (config.code - 1 is written to the
FEC CODE register, 0 for turbo and 1 for ldpc, and Invalid is the unset
zero value). -/
inductive XsdfecCode where
  | codeInvalid
  | turboCode
  | ldpcCode
deriving DecidableEq, Repr

/-- Numeric value of enum xsdfec_code. -/
def codeVal : XsdfecCode → Nat
  | XsdfecCode.codeInvalid => 0
  | XsdfecCode.turboCode => 1
  | XsdfecCode.ldpcCode => 2

/-- Modelled from the spec: XSDFEC_INVALID_ORDER is the unset zero value of
enum xsdfec_order (uapi header, not under src/). -/
def XSDFEC_INVALID_ORDER : Nat := 0

/-- Modelled from the spec: XSDFEC_ORDER_MAX bounds the ordered set of valid
decode-order values (uapi header, not under src/). -/
def XSDFEC_ORDER_MAX : Nat := 3

/-- Abstract tags for the dev_err log messages the source emits. -/
inductive LogEvent where
  | writeProtectBlocked
  | nBeyond16Bits
  | kBeyond16Bits
  | psizeBeyond
  | noPackingInvalid
  | nmBeyond
  | nlayersExceeds9Bits
  | nmqcExceeds11Bits
  | normTypeInvalid
  | specialQcInvalid
  | noFinalParityInvalid
  | maxScheduleExceeds2Bits
  | reg0OutOfSpace
  | reg1OutOfSpace
  | reg2OutOfSpace
  | reg3OutOfSpace
  | scTableExceeded
  | laTableExceeded
  | qcTableExceeded
  | turboWriteCheckDT
  | turboReadCheckDT
  | ldpcWriteCheckDT
  | ldpcReadCheckDT
  | copyFromUserFailed
  | copyToUserFailed
  | multiBitError
  | tlastOrWordsError
  | enableIrqFailed
  | disableIrqFailed
  | enableEccIrqFailed
  | disableEccIrqFailed
  | setCodeBeforeStart
  | hwCodeMismatch
  | setOrderBeforeStart
  | invalidOrderValue
  | orderWhileStarted
  | bypassInvalid
  | bypassWhileStarted
  | deviceNotStarted
  | needsResetGate
  | nullArgument
  | invalidArgument
deriving DecidableEq, Repr

/-- Configuration, struct xsdfec_config.  The AXI stream width and
word-include settings are carried abstractly as the translated register
field values they map to (0..2 and 0..1), which is all
xsdfec_cfg_axi_streams uses them for. -/
structure XsdfecConfig where
  fec_id : Nat
  code : XsdfecCode
  order : Nat
  din_width_field : Nat
  din_words_field : Nat
  dout_width_field : Nat
  dout_words_field : Nat
deriving DecidableEq, Repr

/-- Driver/device state, struct xsdfec_dev plus the modelled hardware:
regs is the register map, wrTrace the effective iowrite32 calls (address,
value), rdTrace the ioread32 addresses, logs the dev_err events. -/
structure XsdfecDev where
  regs : Nat → Nat
  wrTrace : List (Nat × Nat)
  rdTrace : List Nat
  logs : List LogEvent
  state : XsdfecState
  config : XsdfecConfig
  wr_protect : Bool
  isr_err_count : Nat
  cecc_count : Nat
  uecc_count : Nat

/-- Record a dev_err call. -/
def devErr (d : XsdfecDev) (e : LogEvent) : XsdfecDev :=
  { d with logs := d.logs ++ [e] }

/-- xsdfec_regwrite: a register write is dropped (only logged) while the
write-protect flag is set; otherwise it updates the register map and is
appended to the write trace. -/
def xsdfec_regwrite (d : XsdfecDev) (addr value : Nat) : XsdfecDev :=
  if d.wr_protect then
    devErr d LogEvent.writeProtectBlocked
  else
    { d with
      regs := fun a => if a = addr then u32 value else d.regs a,
      wrTrace := d.wrTrace ++ [(addr, u32 value)] }

/-- xsdfec_regread: returns the register value and records the read. -/
def xsdfec_regread (d : XsdfecDev) (addr : Nat) : Nat × XsdfecDev :=
  (d.regs addr, { d with rdTrace := d.rdTrace ++ [addr] })

/-- xsdfec_wr_protect: when enabling, write the code-level then the
AXI-level protection register, then set the software flag; when disabling,
clear the flag first, then write the AXI-level then the code-level
protection register. -/
def xsdfec_wr_protect (d : XsdfecDev) (wr_pr : Bool) : XsdfecDev :=
  if wr_pr then
    let d1 := xsdfec_regwrite d XSDFEC_CODE_WR_PROTECT_ADDR XSDFEC_WRITE_PROTECT_ENABLE
    let d2 := xsdfec_regwrite d1 XSDFEC_AXI_WR_PROTECT_ADDR XSDFEC_WRITE_PROTECT_ENABLE
    { d2 with wr_protect := true }
  else
    let d1 : XsdfecDev := { d with wr_protect := false }
    let d2 := xsdfec_regwrite d1 XSDFEC_AXI_WR_PROTECT_ADDR XSDFEC_WRITE_PROTECT_DISABLE
    xsdfec_regwrite d2 XSDFEC_CODE_WR_PROTECT_ADDR XSDFEC_WRITE_PROTECT_DISABLE

/-- LDPC code descriptor, struct xsdfec_ldpc_params (uapi header).  All
numeric fields are u32/u16/u8 in C; here they are Nat, with the C type
ranges imposed as hypotheses where a theorem needs them.  The three table
payloads are total functions from the table index. -/
structure LdpcParams where
  n : Nat
  k : Nat
  psize : Nat
  nlayers : Nat
  nqc : Nat
  nmqc : Nat
  nm : Nat
  norm_type : Nat
  no_packing : Nat
  special_qc : Nat
  no_final_parity : Nat
  max_schedule : Nat
  sc_off : Nat
  la_off : Nat
  qc_off : Nat
  code_id : Nat
  sc_table : Nat → Nat
  la_table : Nat → Nat
  qc_table : Nat → Nat

/-- xsdfec_reg0_write: encode N and K into LDPC code register 0 and write
it.  The C expression n & ~XSDFEC_REG0_N_MASK is n &&& 0xFFFF0000 on u32;
the K check tests k & XSDFEC_REG0_K_MASK (the shifted mask) against the
unshifted caller value, and k << 16 wraps modulo 2^32 before masking. -/
def xsdfec_reg0_write (d : XsdfecDev) (n k offset : Nat) : Int × XsdfecDev :=
  let d := if n &&& 0xFFFF0000 ≠ 0 then devErr d LogEvent.nBeyond16Bits else d
  let n1 := (n &&& XSDFEC_REG0_N_MASK) <<< XSDFEC_REG0_N_LSB
  let d := if k &&& XSDFEC_REG0_K_MASK ≠ 0 then devErr d LogEvent.kBeyond16Bits else d
  let k1 := u32 (k <<< XSDFEC_REG0_K_LSB) &&& XSDFEC_REG0_K_MASK
  let wdata := k1 ||| n1
  if u32 (XSDFEC_LDPC_CODE_REG0_ADDR_BASE + u32 (offset * XSDFEC_LDPC_REG_JUMP)) >
      XSDFEC_LDPC_CODE_REG0_ADDR_HIGH then
    (-22, devErr d LogEvent.reg0OutOfSpace)
  else
    (0, xsdfec_regwrite d
      (u32 (XSDFEC_LDPC_CODE_REG0_ADDR_BASE + u32 (offset * XSDFEC_LDPC_REG_JUMP))) wdata)

/-- xsdfec_collect_ldpc_reg0: decode N and K from LDPC code register 0.
The source masks K with the shifted XSDFEC_REG0_K_MASK after already
shifting the register value right, which this model reproduces. -/
def xsdfec_collect_ldpc_reg0 (d : XsdfecDev) (code_id : Nat) (p : LdpcParams) :
    Int × LdpcParams × XsdfecDev :=
  let reg_addr := u32 (XSDFEC_LDPC_CODE_REG0_ADDR_BASE + u32 (code_id * XSDFEC_LDPC_REG_JUMP))
  if reg_addr > XSDFEC_LDPC_CODE_REG0_ADDR_HIGH then
    (-22, p, devErr d LogEvent.reg0OutOfSpace)
  else
    let rd := xsdfec_regread d reg_addr
    let reg_value := rd.1
    ( 0,
      { p with
        n := (reg_value >>> XSDFEC_REG0_N_LSB) &&& XSDFEC_REG0_N_MASK,
        k := (reg_value >>> XSDFEC_REG0_K_LSB) &&& XSDFEC_REG0_K_MASK },
      rd.2 )

/-- xsdfec_reg1_write: encode psize, no_packing and NM into LDPC code
register 1 and write it. -/
def xsdfec_reg1_write (d : XsdfecDev) (psize no_packing nm offset : Nat) : Int × XsdfecDev :=
  let d := if psize &&& 0xFFFFFE00 ≠ 0 then devErr d LogEvent.psizeBeyond else d
  let psize1 := psize &&& XSDFEC_REG1_PSIZE_MASK
  let d := if no_packing ≠ 0 ∧ no_packing ≠ 1 then devErr d LogEvent.noPackingInvalid else d
  let no_packing1 := u32 (no_packing <<< XSDFEC_REG1_NO_PACKING_LSB) &&& XSDFEC_REG1_NO_PACKING_MASK
  let d := if nm &&& 0xFFFFFE00 ≠ 0 then devErr d LogEvent.nmBeyond else d
  let nm1 := u32 (nm <<< XSDFEC_REG1_NM_LSB) &&& XSDFEC_REG1_NM_MASK
  let wdata := nm1 ||| no_packing1 ||| psize1
  if u32 (XSDFEC_LDPC_CODE_REG1_ADDR_BASE + u32 (offset * XSDFEC_LDPC_REG_JUMP)) >
      XSDFEC_LDPC_CODE_REG1_ADDR_HIGH then
    (-22, devErr d LogEvent.reg1OutOfSpace)
  else
    (0, xsdfec_regwrite d
      (u32 (XSDFEC_LDPC_CODE_REG1_ADDR_BASE + u32 (offset * XSDFEC_LDPC_REG_JUMP))) wdata)

/-- xsdfec_collect_ldpc_reg1: decode psize, no_packing, NM from register 1.
The source applies the unshifted field masks after shifting the register
value right, which this model reproduces. -/
def xsdfec_collect_ldpc_reg1 (d : XsdfecDev) (code_id : Nat) (p : LdpcParams) :
    Int × LdpcParams × XsdfecDev :=
  let reg_addr := u32 (XSDFEC_LDPC_CODE_REG1_ADDR_BASE + u32 (code_id * XSDFEC_LDPC_REG_JUMP))
  if reg_addr > XSDFEC_LDPC_CODE_REG1_ADDR_HIGH then
    (-22, p, devErr d LogEvent.reg1OutOfSpace)
  else
    let rd := xsdfec_regread d reg_addr
    let reg_value := rd.1
    ( 0,
      { p with
        psize := reg_value &&& XSDFEC_REG1_PSIZE_MASK,
        no_packing := (reg_value >>> XSDFEC_REG1_NO_PACKING_LSB) &&& XSDFEC_REG1_NO_PACKING_MASK,
        nm := (reg_value >>> XSDFEC_REG1_NM_LSB) &&& XSDFEC_REG1_NM_MASK },
      rd.2 )

/-- xsdfec_reg2_write: encode nlayers, nmqc, norm_type, special_qc,
no_final_parity and max_schedule into LDPC code register 2 and write it. -/
def xsdfec_reg2_write (d : XsdfecDev)
    (nlayers nmqc norm_type special_qc no_final_parity max_schedule offset : Nat) :
    Int × XsdfecDev :=
  let d := if nlayers &&& 0xFFFFFE00 ≠ 0 then devErr d LogEvent.nlayersExceeds9Bits else d
  let nlayers1 := nlayers &&& XSDFEC_REG2_NLAYERS_MASK
  let d := if nmqc &&& 0xFFFFF800 ≠ 0 then devErr d LogEvent.nmqcExceeds11Bits else d
  let nmqc1 := u32 (nmqc <<< XSDFEC_REG2_NMQC_LSB) &&& XSDFEC_REG2_NNMQC_MASK
  let d := if norm_type > 1 then devErr d LogEvent.normTypeInvalid else d
  let norm_type1 := u32 (norm_type <<< XSDFEC_REG2_NORM_TYPE_LSB) &&& XSDFEC_REG2_NORM_TYPE_MASK
  let d := if special_qc > 1 then devErr d LogEvent.specialQcInvalid else d
  let special_qc1 := u32 (special_qc <<< XSDFEC_REG2_SPEICAL_QC_LSB) &&& XSDFEC_REG2_SPECIAL_QC_MASK
  let d := if no_final_parity > 1 then devErr d LogEvent.noFinalParityInvalid else d
  let no_final_parity1 :=
    u32 (no_final_parity <<< XSDFEC_REG2_NO_FINAL_PARITY_LSB) &&& XSDFEC_REG2_NO_FINAL_PARITY_MASK
  let d := if max_schedule &&& 0xFFFFFFFC ≠ 0 then devErr d LogEvent.maxScheduleExceeds2Bits else d
  let max_schedule1 :=
    u32 (max_schedule <<< XSDFEC_REG2_MAX_SCHEDULE_LSB) &&& XSDFEC_REG2_MAX_SCHEDULE_MASK
  let wdata := max_schedule1 ||| no_final_parity1 ||| special_qc1 ||| norm_type1 ||| nmqc1 ||| nlayers1
  if u32 (XSDFEC_LDPC_CODE_REG2_ADDR_BASE + u32 (offset * XSDFEC_LDPC_REG_JUMP)) >
      XSDFEC_LDPC_CODE_REG2_ADDR_HIGH then
    (-22, devErr d LogEvent.reg2OutOfSpace)
  else
    (0, xsdfec_regwrite d
      (u32 (XSDFEC_LDPC_CODE_REG2_ADDR_BASE + u32 (offset * XSDFEC_LDPC_REG_JUMP))) wdata)

/-- xsdfec_collect_ldpc_reg2: decode register 2 fields.  The source applies
the unshifted field masks after shifting the register value right, which
this model reproduces. -/
def xsdfec_collect_ldpc_reg2 (d : XsdfecDev) (code_id : Nat) (p : LdpcParams) :
    Int × LdpcParams × XsdfecDev :=
  let reg_addr := u32 (XSDFEC_LDPC_CODE_REG2_ADDR_BASE + u32 (code_id * XSDFEC_LDPC_REG_JUMP))
  if reg_addr > XSDFEC_LDPC_CODE_REG2_ADDR_HIGH then
    (-22, p, devErr d LogEvent.reg2OutOfSpace)
  else
    let rd := xsdfec_regread d reg_addr
    let reg_value := rd.1
    ( 0,
      { p with
        nlayers := (reg_value >>> XSDFEC_REG2_NLAYERS_LSB) &&& XSDFEC_REG2_NLAYERS_MASK,
        nmqc := (reg_value >>> XSDFEC_REG2_NMQC_LSB) &&& XSDFEC_REG2_NNMQC_MASK,
        norm_type := (reg_value >>> XSDFEC_REG2_NORM_TYPE_LSB) &&& XSDFEC_REG2_NORM_TYPE_MASK,
        special_qc := (reg_value >>> XSDFEC_REG2_SPEICAL_QC_LSB) &&& XSDFEC_REG2_SPECIAL_QC_MASK,
        no_final_parity :=
          (reg_value >>> XSDFEC_REG2_NO_FINAL_PARITY_LSB) &&& XSDFEC_REG2_NO_FINAL_PARITY_MASK,
        max_schedule :=
          (reg_value >>> XSDFEC_REG2_MAX_SCHEDULE_LSB) &&& XSDFEC_REG2_MAX_SCHEDULE_MASK },
      rd.2 )

/-- xsdfec_reg3_write: encode the three table offsets into LDPC code
register 3 and write it.  The C parameter types are u8 sc_off, u8 la_off,
u16 qc_off, so the values are truncated to those widths at the call. -/
def xsdfec_reg3_write (d : XsdfecDev) (sc_off la_off qc_off offset : Nat) : Int × XsdfecDev :=
  let sc_off := sc_off &&& 0xFF
  let la_off := la_off &&& 0xFF
  let qc_off := qc_off &&& 0xFFFF
  let wdata := (qc_off <<< XSDFEC_REG3_QC_OFF_LSB) ||| (la_off <<< XSDFEC_REG3_LA_OFF_LSB) ||| sc_off
  if u32 (XSDFEC_LDPC_CODE_REG3_ADDR_BASE + u32 (offset * XSDFEC_LDPC_REG_JUMP)) >
      XSDFEC_LDPC_CODE_REG3_ADDR_HIGH then
    (-22, devErr d LogEvent.reg3OutOfSpace)
  else
    (0, xsdfec_regwrite d
      (u32 (XSDFEC_LDPC_CODE_REG3_ADDR_BASE + u32 (offset * XSDFEC_LDPC_REG_JUMP))) wdata)

/-- xsdfec_collect_ldpc_reg3: the source decodes the offsets from reg_addr
(the register address), not from the reg_value it just read; the read is
still performed.  This model reproduces that. -/
def xsdfec_collect_ldpc_reg3 (d : XsdfecDev) (code_id : Nat) (p : LdpcParams) :
    Int × LdpcParams × XsdfecDev :=
  let reg_addr := u32 (XSDFEC_LDPC_CODE_REG3_ADDR_BASE + u32 (code_id * XSDFEC_LDPC_REG_JUMP))
  if reg_addr > XSDFEC_LDPC_CODE_REG3_ADDR_HIGH then
    (-22, p, devErr d LogEvent.reg3OutOfSpace)
  else
    let rd := xsdfec_regread d reg_addr
    ( 0,
      { p with
        qc_off := (reg_addr >>> XSDFEC_REG3_QC_OFF_LSB) &&& 0xFF,
        la_off := (reg_addr >>> XSDFEC_REG3_LA_OFF_LSB) &&& 0xFF,
        sc_off := reg_addr &&& 0xFF },
      rd.2 )

/-- The register-write loop shared by the three table write functions:
for reg in 0..len-1, write tab reg at base + (offset+reg)*4. -/
def writeTableLoop (d : XsdfecDev) (base offset : Nat) (tab : Nat → Nat) : Nat → XsdfecDev
  | 0 => d
  | Nat.succ m =>
      xsdfec_regwrite (writeTableLoop d base offset tab m)
        (u32 (base + u32 ((offset + m) * XSDFEC_REG_WIDTH_JUMP))) (tab m)

/-- The register-read loop shared by the three table collect functions:
for reg in 0..len-1, read base + (offset+reg)*4 into index reg. -/
def collectTableLoop (d : XsdfecDev) (base offset : Nat) (tab : Nat → Nat) :
    Nat → (Nat → Nat) × XsdfecDev
  | 0 => (tab, d)
  | Nat.succ m =>
      let acc := collectTableLoop d base offset tab m
      let rd := xsdfec_regread acc.2 (u32 (base + u32 ((offset + m) * XSDFEC_REG_WIDTH_JUMP)))
      (fun i => if i = m then rd.1 else acc.1 i, rd.2)

/-- xsdfec_sc_table_write: bounds check against the SC table depth, then
write len words; returns the loop counter (len) on success.  The bound is
computed in u32 arithmetic as in C. -/
def xsdfec_sc_table_write (d : XsdfecDev) (offset : Nat) (sc_ptr : Nat → Nat) (len : Nat) :
    Int × XsdfecDev :=
  if u32 (XSDFEC_REG_WIDTH_JUMP * u32 (offset + len)) > XSDFEC_SC_TABLE_DEPTH then
    (-22, devErr d LogEvent.scTableExceeded)
  else
    (Int.ofNat len, writeTableLoop d XSDFEC_LDPC_SC_TABLE_ADDR_BASE offset sc_ptr len)

/-- xsdfec_collect_sc_table. -/
def xsdfec_collect_sc_table (d : XsdfecDev) (offset : Nat) (sc_ptr : Nat → Nat) (len : Nat) :
    Int × (Nat → Nat) × XsdfecDev :=
  if u32 (XSDFEC_REG_WIDTH_JUMP * u32 (offset + len)) > XSDFEC_SC_TABLE_DEPTH then
    (-22, sc_ptr, devErr d LogEvent.scTableExceeded)
  else
    let acc := collectTableLoop d XSDFEC_LDPC_SC_TABLE_ADDR_BASE offset sc_ptr len
    (0, acc.1, acc.2)

/-- xsdfec_la_table_write. -/
def xsdfec_la_table_write (d : XsdfecDev) (offset : Nat) (la_ptr : Nat → Nat) (len : Nat) :
    Int × XsdfecDev :=
  if u32 (XSDFEC_REG_WIDTH_JUMP * u32 (offset + len)) > XSDFEC_LA_TABLE_DEPTH then
    (-22, devErr d LogEvent.laTableExceeded)
  else
    (Int.ofNat len, writeTableLoop d XSDFEC_LDPC_LA_TABLE_ADDR_BASE offset la_ptr len)

/-- xsdfec_collect_la_table. -/
def xsdfec_collect_la_table (d : XsdfecDev) (offset : Nat) (la_ptr : Nat → Nat) (len : Nat) :
    Int × (Nat → Nat) × XsdfecDev :=
  if u32 (XSDFEC_REG_WIDTH_JUMP * u32 (offset + len)) > XSDFEC_LA_TABLE_DEPTH then
    (-22, la_ptr, devErr d LogEvent.laTableExceeded)
  else
    let acc := collectTableLoop d XSDFEC_LDPC_LA_TABLE_ADDR_BASE offset la_ptr len
    (0, acc.1, acc.2)

/-- xsdfec_qc_table_write. -/
def xsdfec_qc_table_write (d : XsdfecDev) (offset : Nat) (qc_ptr : Nat → Nat) (len : Nat) :
    Int × XsdfecDev :=
  if u32 (XSDFEC_REG_WIDTH_JUMP * u32 (offset + len)) > XSDFEC_QC_TABLE_DEPTH then
    (-22, devErr d LogEvent.qcTableExceeded)
  else
    (Int.ofNat len, writeTableLoop d XSDFEC_LDPC_QC_TABLE_ADDR_BASE offset qc_ptr len)

/-- xsdfec_collect_qc_table. -/
def xsdfec_collect_qc_table (d : XsdfecDev) (offset : Nat) (qc_ptr : Nat → Nat) (len : Nat) :
    Int × (Nat → Nat) × XsdfecDev :=
  if u32 (XSDFEC_REG_WIDTH_JUMP * u32 (offset + len)) > XSDFEC_QC_TABLE_DEPTH then
    (-22, qc_ptr, devErr d LogEvent.qcTableExceeded)
  else
    let acc := collectTableLoop d XSDFEC_LDPC_QC_TABLE_ADDR_BASE offset qc_ptr len
    (0, acc.1, acc.2)

/-- xsdfec_add_ldpc (the part after a successful kzalloc): copyFromBytes is
what copy_from_user returned (0 on success, the number of uncopied bytes
otherwise; the source returns that count unchanged).  On the Turbo-reject
path the source jumps to err_out while err still holds 0 from the
successful copy, so it returns 0. -/
def xsdfec_add_ldpc (d : XsdfecDev) (ldpc : LdpcParams) (copyFromBytes : Nat) : Int × XsdfecDev :=
  if copyFromBytes ≠ 0 then (Int.ofNat copyFromBytes, devErr d LogEvent.copyFromUserFailed)
  else if d.config.code = XsdfecCode.turboCode then
    (0, devErr d LogEvent.ldpcWriteCheckDT)
  else
    let d := if d.wr_protect then xsdfec_wr_protect d false else d
    let r0 := xsdfec_reg0_write d ldpc.n ldpc.k ldpc.code_id
    if r0.1 ≠ 0 then r0 else
    let r1 := xsdfec_reg1_write r0.2 ldpc.psize ldpc.no_packing ldpc.nm ldpc.code_id
    if r1.1 ≠ 0 then r1 else
    let r2 := xsdfec_reg2_write r1.2 ldpc.nlayers ldpc.nmqc ldpc.norm_type ldpc.special_qc
                ldpc.no_final_parity ldpc.max_schedule ldpc.code_id
    if r2.1 ≠ 0 then r2 else
    let r3 := xsdfec_reg3_write r2.2 ldpc.sc_off ldpc.la_off ldpc.qc_off ldpc.code_id
    if r3.1 ≠ 0 then r3 else
    let t1 := xsdfec_sc_table_write r3.2 ldpc.sc_off ldpc.sc_table ldpc.nlayers
    if t1.1 < 0 then t1 else
    let t2 := xsdfec_la_table_write t1.2 (4 * ldpc.la_off) ldpc.la_table ldpc.nlayers
    if t2.1 < 0 then t2 else
    let t3 := xsdfec_qc_table_write t2.2 (4 * ldpc.qc_off) ldpc.qc_table ldpc.nqc
    if t3.1 < 0 then t3 else
    (0, t3.2)

/-- xsdfec_get_ldpc_code_params: reads registers 0..3 for the
caller-supplied code_id, then the three table windows; the table lengths
are the (hardware-decoded) nlayers and the caller-supplied nqc.  The final
copy_to_user result is recorded in err as -EFAULT on failure, but the
function returns 0 on that path (the source returns the literal 0 after
the copy).  The middle component is the descriptor handed to
copy_to_user. -/
def xsdfec_get_ldpc_code_params (d : XsdfecDev) (userParams : LdpcParams)
    (copyFromBytes : Nat) (copyToUserOk : Bool) : Int × LdpcParams × XsdfecDev :=
  if d.config.code = XsdfecCode.turboCode then
    (-5, userParams, devErr d LogEvent.ldpcReadCheckDT)
  else if copyFromBytes ≠ 0 then
    (Int.ofNat copyFromBytes, userParams, devErr d LogEvent.copyFromUserFailed)
  else
    let c0 := xsdfec_collect_ldpc_reg0 d userParams.code_id userParams
    if c0.1 ≠ 0 then c0 else
    let c1 := xsdfec_collect_ldpc_reg1 c0.2.2 c0.2.1.code_id c0.2.1
    if c1.1 ≠ 0 then c1 else
    let c2 := xsdfec_collect_ldpc_reg2 c1.2.2 c1.2.1.code_id c1.2.1
    if c2.1 ≠ 0 then c2 else
    let c3 := xsdfec_collect_ldpc_reg3 c2.2.2 c2.2.1.code_id c2.2.1
    if c3.1 ≠ 0 then c3 else
    let p := c3.2.1
    let s1 := xsdfec_collect_sc_table c3.2.2 p.sc_off p.sc_table p.nlayers
    let p := { p with sc_table := s1.2.1 }
    if s1.1 < 0 then (s1.1, p, s1.2.2) else
    let s2 := xsdfec_collect_la_table s1.2.2 (4 * p.la_off) p.la_table p.nlayers
    let p := { p with la_table := s2.2.1 }
    if s2.1 < 0 then (s2.1, p, s2.2.2) else
    let s3 := xsdfec_collect_qc_table s2.2.2 (4 * p.qc_off) p.qc_table p.nqc
    let p := { p with qc_table := s3.2.1 }
    if s3.1 < 0 then (s3.1, p, s3.2.2) else
    if copyToUserOk then (0, p, s3.2.2)
    else (0, p, devErr s3.2.2 LogEvent.copyToUserFailed)

/-- xsdfec_get_status: reads the activity register and copies a status
record to the caller. -/
def xsdfec_get_status (d : XsdfecDev) (copyToUserOk : Bool) : Int × XsdfecDev :=
  let rd := xsdfec_regread d XSDFEC_ACTIVE_ADDR
  if copyToUserOk then (0, rd.2) else (-14, devErr rd.2 LogEvent.copyToUserFailed)

/-- xsdfec_get_config: copies the current configuration to the caller. -/
def xsdfec_get_config (d : XsdfecDev) (copyToUserOk : Bool) : Int × XsdfecDev :=
  if copyToUserOk then (0, d) else (-14, devErr d LogEvent.copyToUserFailed)

/-- xsdfec_isr_enable: write the enable (or disable) register, then verify
via the mask register. -/
def xsdfec_isr_enable (d : XsdfecDev) (enable : Bool) : Int × XsdfecDev :=
  if enable then
    let d := xsdfec_regwrite d XSDFEC_IER_ADDR XSDFEC_ISR_MASK
    let rd := xsdfec_regread d XSDFEC_IMR_ADDR
    if rd.1 &&& XSDFEC_ISR_MASK ≠ 0 then (-5, devErr rd.2 LogEvent.enableIrqFailed)
    else (0, rd.2)
  else
    let d := xsdfec_regwrite d XSDFEC_IDR_ADDR XSDFEC_ISR_MASK
    let rd := xsdfec_regread d XSDFEC_IMR_ADDR
    if rd.1 &&& XSDFEC_ISR_MASK ≠ XSDFEC_ISR_MASK then (-5, devErr rd.2 LogEvent.disableIrqFailed)
    else (0, rd.2)

/-- xsdfec_ecc_isr_enable: ECC variant of xsdfec_isr_enable. -/
def xsdfec_ecc_isr_enable (d : XsdfecDev) (enable : Bool) : Int × XsdfecDev :=
  if enable then
    let d := xsdfec_regwrite d XSDFEC_ECC_IER_ADDR XSDFEC_ECC_ISR_MASK
    let rd := xsdfec_regread d XSDFEC_ECC_IMR_ADDR
    if rd.1 &&& XSDFEC_ECC_ISR_MASK ≠ 0 then (-5, devErr rd.2 LogEvent.enableEccIrqFailed)
    else (0, rd.2)
  else
    let d := xsdfec_regwrite d XSDFEC_ECC_IDR_ADDR XSDFEC_ECC_ISR_MASK
    let rd := xsdfec_regread d XSDFEC_ECC_IMR_ADDR
    if rd.1 &&& XSDFEC_ECC_ISR_MASK ≠ XSDFEC_ECC_ISR_MASK then
      (-5, devErr rd.2 LogEvent.disableEccIrqFailed)
    else (0, rd.2)

/-- xsdfec_set_irq: copy the request, then enable the requested interrupt
classes. -/
def xsdfec_set_irq (d : XsdfecDev) (enable_isr enable_ecc_isr : Bool) (copyFromBytes : Nat) :
    Int × XsdfecDev :=
  if copyFromBytes ≠ 0 then (-14, devErr d LogEvent.copyFromUserFailed)
  else if enable_isr then
    let r := xsdfec_isr_enable d true
    if r.1 < 0 then r
    else if enable_ecc_isr then
      let r2 := xsdfec_ecc_isr_enable r.2 true
      if r2.1 < 0 then r2 else (0, r2.2)
    else (0, r.2)
  else if enable_ecc_isr then
    let r2 := xsdfec_ecc_isr_enable d true
    if r2.1 < 0 then r2 else (0, r2.2)
  else (0, d)

/-- xsdfec_set_turbo: rejects when the code family is LDPC; adopts Turbo
when the family is still unset; disables write protection if needed and
programs the turbo register. -/
def xsdfec_set_turbo (d : XsdfecDev) (scale alg : Nat) (copyFromBytes : Nat) : Int × XsdfecDev :=
  if copyFromBytes ≠ 0 then (-14, devErr d LogEvent.copyFromUserFailed)
  else if d.config.code = XsdfecCode.ldpcCode then (-5, devErr d LogEvent.turboWriteCheckDT)
  else
    let d := if d.config.code = XsdfecCode.codeInvalid then
      { d with config := { d.config with code := XsdfecCode.turboCode } } else d
    let d := if d.wr_protect then xsdfec_wr_protect d false else d
    let turbo_write := ((scale &&& XSDFEC_TURBO_SCALE_MASK) <<< XSDFEC_TURBO_SCALE_BIT_POS) ||| alg
    (0, xsdfec_regwrite d XSDFEC_TURBO_ADDR turbo_write)

/-- xsdfec_get_turbo: rejects when the code family is LDPC, else reads the
turbo register and copies the decoded parameters out. -/
def xsdfec_get_turbo (d : XsdfecDev) (copyToUserOk : Bool) : Int × XsdfecDev :=
  if d.config.code = XsdfecCode.ldpcCode then (-5, devErr d LogEvent.turboReadCheckDT)
  else
    let rd := xsdfec_regread d XSDFEC_TURBO_ADDR
    if copyToUserOk then (0, rd.2) else (-14, devErr rd.2 LogEvent.copyToUserFailed)

/-- xsdfec_set_order: validates the order value, rejects while started,
then writes order - 1 to the order register and records the order. -/
def xsdfec_set_order (d : XsdfecDev) (order : Nat) : Int × XsdfecDev :=
  if order ≤ XSDFEC_INVALID_ORDER ∨ order ≥ XSDFEC_ORDER_MAX then
    (-22, devErr d LogEvent.invalidOrderValue)
  else if d.state = XsdfecState.started then (-5, devErr d LogEvent.orderWhileStarted)
  else
    let d := xsdfec_regwrite d XSDFEC_ORDER_ADDR (order - 1)
    (0, { d with config := { d.config with order := order } })

/-- xsdfec_set_bypass: validates the bypass value, rejects while started,
then writes the bypass register. -/
def xsdfec_set_bypass (d : XsdfecDev) (bypass : Nat) : Int × XsdfecDev :=
  if bypass > 1 then (-22, devErr d LogEvent.bypassInvalid)
  else if d.state = XsdfecState.started then (-5, devErr d LogEvent.bypassWhileStarted)
  else (0, xsdfec_regwrite d XSDFEC_BYPASS_ADDR bypass)

/-- xsdfec_is_active: reads the activity register. -/
def xsdfec_is_active (d : XsdfecDev) : Int × XsdfecDev :=
  let rd := xsdfec_regread d XSDFEC_ACTIVE_ADDR
  (0, rd.2)

def XSDFEC_AXIS_DOUT_WORDS_LSB : Nat := 5
def XSDFEC_AXIS_DOUT_WIDTH_LSB : Nat := 3
def XSDFEC_AXIS_DIN_WORDS_LSB : Nat := 2
def XSDFEC_AXIS_DIN_WIDTH_LSB : Nat := 0

/-- xsdfec_cfg_axi_streams: assemble the AXI stream width register from the
translated configuration fields and write it. -/
def xsdfec_cfg_axi_streams (d : XsdfecDev) : Int × XsdfecDev :=
  let reg_value := (d.config.dout_words_field <<< XSDFEC_AXIS_DOUT_WORDS_LSB) |||
    (d.config.dout_width_field <<< XSDFEC_AXIS_DOUT_WIDTH_LSB) |||
    (d.config.din_words_field <<< XSDFEC_AXIS_DIN_WORDS_LSB) |||
    (d.config.din_width_field <<< XSDFEC_AXIS_DIN_WIDTH_LSB)
  (0, xsdfec_regwrite d XSDFEC_AXIS_WIDTH_ADDR reg_value)

/-- xsdfec_start: requires the code family to be set, the hardware code
register to match it, and the order to be set; then enables the AXI
streams, asserts write protection and moves to STARTED. -/
def xsdfec_start (d : XsdfecDev) : Int × XsdfecDev :=
  if d.config.code = XsdfecCode.codeInvalid then (-22, devErr d LogEvent.setCodeBeforeStart)
  else
    let rd := xsdfec_regread d XSDFEC_FEC_CODE_ADDR
    let regread := rd.1 &&& 0x1
    let d := rd.2
    if regread ≠ codeVal d.config.code - 1 then (-22, devErr d LogEvent.hwCodeMismatch)
    else if d.config.order = XSDFEC_INVALID_ORDER then (-22, devErr d LogEvent.setOrderBeforeStart)
    else
      let d := xsdfec_regwrite d XSDFEC_AXIS_ENABLE_ADDR XSDFEC_AXIS_ENABLE_MASK
      let d := xsdfec_wr_protect d true
      (0, { d with state := XsdfecState.started })

/-- xsdfec_stop: logs if not started, deasserts write protection, clears
the AXIS enable bits and moves to STOPPED.  The C expression
regread &= ~XSDFEC_AXIS_ENABLE_MASK is &&& 0xFFFFFFC0 on u32. -/
def xsdfec_stop (d : XsdfecDev) : Int × XsdfecDev :=
  let d := if d.state ≠ XsdfecState.started then devErr d LogEvent.deviceNotStarted else d
  let d := xsdfec_wr_protect d false
  let rd := xsdfec_regread d XSDFEC_AXIS_ENABLE_ADDR
  let regread := rd.1 &&& 0xFFFFFFC0
  let d := xsdfec_regwrite rd.2 XSDFEC_AXIS_ENABLE_ADDR regread
  (0, { d with state := XsdfecState.stopped })

/-- xsdfec_clear_stats: zero the three error counters. -/
def xsdfec_clear_stats (d : XsdfecDev) : Int × XsdfecDev :=
  (0, { d with isr_err_count := 0, uecc_count := 0, cecc_count := 0 })

/-- xsdfec_get_stats: copy the three counters to the caller. -/
def xsdfec_get_stats (d : XsdfecDev) (copyToUserOk : Bool) : Int × XsdfecDev :=
  if copyToUserOk then (0, d) else (-14, devErr d LogEvent.copyToUserFailed)

/-- xsdfec_set_default_config: back to INIT with the order invalidated and
write protection cleared; rewrites the FEC code register (the C u32 cast
of config.code - 1, which wraps for the Invalid value 0) and the AXI
stream configuration. -/
def xsdfec_set_default_config (d : XsdfecDev) : Int × XsdfecDev :=
  let d : XsdfecDev :=
    { d with state := XsdfecState.init,
             config := { d.config with order := XSDFEC_INVALID_ORDER },
             wr_protect := false }
  let d := xsdfec_wr_protect d false
  let d := xsdfec_regwrite d XSDFEC_FEC_CODE_ADDR (u32 (codeVal d.config.code + 0xFFFFFFFF))
  let r := xsdfec_cfg_axi_streams d
  (0, r.2)

/-- hweight32: population count of the low 32 bits. -/
def hweight32 (x : Nat) : Nat :=
  (List.range 32).foldl (fun acc i => acc + ((x >>> i) &&& 1)) 0

/-- xsdfec_log_ecc_errors: split the ECC status into single-bit and
multi-bit errors, accumulate both counters by population count, log when
the multi-bit count is in the reporting window, and clear the ECC status
register. -/
def xsdfec_log_ecc_errors (d : XsdfecDev) (ecc_err : Nat) : XsdfecDev :=
  let cecc := ecc_err &&& XSDFEC_ECC_ISR_SBE
  let uecc := ecc_err &&& XSDFEC_ECC_ISR_MBE
  let uecc_cnt := d.uecc_count + hweight32 uecc
  let d := { d with uecc_count := uecc_cnt }
  let d := { d with cecc_count := d.cecc_count + hweight32 cecc }
  let d := if uecc_cnt > 0 ∧ uecc_cnt < XSDFEC_ERROR_MAX_THRESHOLD then
    devErr d LogEvent.multiBitError else d
  xsdfec_regwrite d XSDFEC_ECC_ISR_ADDR 0

/-- xsdfec_log_isr_errors: accumulate the ISR error counter by the
population count of the whole status value, log when in the reporting
window, then perform the status-clearing write.  The source writes the
ECC interrupt status register (XSDFEC_ECC_ISR_ADDR) here even though its
own comment says it is clearing the ISR error status. -/
def xsdfec_log_isr_errors (d : XsdfecDev) (isr_err : Nat) : XsdfecDev :=
  let isr_err_cnt := d.isr_err_count + hweight32 isr_err
  let d := { d with isr_err_count := isr_err_cnt }
  let d := if isr_err_cnt > 0 ∧ isr_err_cnt < XSDFEC_ERROR_MAX_THRESHOLD then
    devErr d LogEvent.tlastOrWordsError else d
  xsdfec_regwrite d XSDFEC_ECC_ISR_ADDR 0

/-- xsdfec_reset_required: escalate the device state. -/
def xsdfec_reset_required (d : XsdfecDev) : XsdfecDev :=
  { d with state := XsdfecState.needsReset }

/-- Result of one run of the threaded interrupt handler: whether it claimed
the interrupt, whether the fatal path ran (waking waiters), and the final
device state. -/
structure IrqResult where
  handled : Bool
  fatal : Bool
  dev : XsdfecDev

/-- xsdfec_irq_thread: mask both interrupt classes, read both status
registers, classify (multi-bit ECC, then general ISR errors, then
single-bit ECC, else not ours), and re-enable both classes before
returning. -/
def xsdfec_irq_thread (d : XsdfecDev) : IrqResult :=
  let d := (xsdfec_isr_enable d false).2
  let d := (xsdfec_ecc_isr_enable d false).2
  let rd1 := xsdfec_regread d XSDFEC_ECC_ISR_ADDR
  let ecc_err := rd1.1
  let rd2 := xsdfec_regread rd1.2 XSDFEC_ISR_ADDR
  let isr_err := rd2.1
  let d := rd2.2
  let res : Bool × Bool × XsdfecDev :=
    if ecc_err &&& XSDFEC_ECC_ISR_MBE ≠ 0 then
      (true, true, xsdfec_reset_required (xsdfec_log_ecc_errors d ecc_err))
    else if isr_err &&& XSDFEC_ISR_MASK ≠ 0 then
      (true, true, xsdfec_reset_required (xsdfec_log_isr_errors d isr_err))
    else if ecc_err &&& XSDFEC_ECC_ISR_SBE ≠ 0 then
      (true, false, xsdfec_log_ecc_errors d ecc_err)
    else
      (false, false, d)
  let d := res.2.2
  let d := (xsdfec_isr_enable d true).2
  let d := (xsdfec_ecc_isr_enable d true).2
  { handled := res.1, fatal := res.2.1, dev := d }

/-- The ioctl command codes of this driver.  The uapi encodings are
pairwise distinct, which is all the dispatch switch relies on. -/
inductive XsdfecIoctlCmd where
  | startDev
  | stopDev
  | clearStats
  | getStats
  | getStatus
  | getConfig
  | setDefaultConfig
  | setIrq
  | setTurbo
  | getTurbo
  | addLdpcCodeParams
  | getLdpcCodeParams
  | setOrder
  | setBypass
  | isActive
deriving DecidableEq, Repr

/-- Ioctl argument direction. -/
inductive IoctlDir where
  | dirNone
  | dirRead
  | dirWrite
  | dirReadWrite
deriving DecidableEq, Repr

/-- Modelled from the spec: the _IO/_IOR/_IOW/_IOWR direction of each
command code, from the uapi header (not under src/); the dispatch shell
only uses whether the direction is none or not. -/
def cmdDir : XsdfecIoctlCmd → IoctlDir
  | XsdfecIoctlCmd.startDev => IoctlDir.dirNone
  | XsdfecIoctlCmd.stopDev => IoctlDir.dirNone
  | XsdfecIoctlCmd.clearStats => IoctlDir.dirNone
  | XsdfecIoctlCmd.getStats => IoctlDir.dirRead
  | XsdfecIoctlCmd.getStatus => IoctlDir.dirRead
  | XsdfecIoctlCmd.getConfig => IoctlDir.dirRead
  | XsdfecIoctlCmd.setDefaultConfig => IoctlDir.dirNone
  | XsdfecIoctlCmd.setIrq => IoctlDir.dirWrite
  | XsdfecIoctlCmd.setTurbo => IoctlDir.dirWrite
  | XsdfecIoctlCmd.getTurbo => IoctlDir.dirRead
  | XsdfecIoctlCmd.addLdpcCodeParams => IoctlDir.dirWrite
  | XsdfecIoctlCmd.getLdpcCodeParams => IoctlDir.dirReadWrite
  | XsdfecIoctlCmd.setOrder => IoctlDir.dirWrite
  | XsdfecIoctlCmd.setBypass => IoctlDir.dirWrite
  | XsdfecIoctlCmd.isActive => IoctlDir.dirRead

/-- The user-side inputs an ioctl call can involve: the decoded payloads
for each command kind, the copy_from_user result, the copy_to_user
success, whether the argument pointer is non-NULL, and whether access_ok
succeeds. -/
structure IoctlInput where
  ldpc : LdpcParams
  turboScale : Nat
  turboAlg : Nat
  order : Nat
  bypass : Nat
  enable_isr : Bool
  enable_ecc_isr : Bool
  copyFromBytes : Nat
  copyToUserOk : Bool
  argPresent : Bool
  accessOk : Bool

/-- xsdfec_dev_ioctl: in NEEDS_RESET state only the reset/status/stats
commands pass the gate, every other command fails with -EPERM before any
hardware access.  Then the magic check (always satisfied for this
driver's own commands), the NULL-argument and access_ok checks, and the
dispatch switch. -/
def xsdfec_dev_ioctl (d : XsdfecDev) (cmd : XsdfecIoctlCmd) (inp : IoctlInput) : Int × XsdfecDev :=
  if d.state = XsdfecState.needsReset ∧ cmd ≠ XsdfecIoctlCmd.setDefaultConfig ∧
      cmd ≠ XsdfecIoctlCmd.getStatus ∧ cmd ≠ XsdfecIoctlCmd.getStats ∧
      cmd ≠ XsdfecIoctlCmd.clearStats then
    (-1, devErr d LogEvent.needsResetGate)
  else if cmdDir cmd ≠ IoctlDir.dirNone ∧ ¬ inp.argPresent then
    (-22, devErr d LogEvent.nullArgument)
  else if cmdDir cmd ≠ IoctlDir.dirNone ∧ ¬ inp.accessOk then
    (-14, devErr d LogEvent.invalidArgument)
  else
    match cmd with
    | XsdfecIoctlCmd.startDev => xsdfec_start d
    | XsdfecIoctlCmd.stopDev => xsdfec_stop d
    | XsdfecIoctlCmd.clearStats => xsdfec_clear_stats d
    | XsdfecIoctlCmd.getStats => xsdfec_get_stats d inp.copyToUserOk
    | XsdfecIoctlCmd.getStatus => xsdfec_get_status d inp.copyToUserOk
    | XsdfecIoctlCmd.getConfig => xsdfec_get_config d inp.copyToUserOk
    | XsdfecIoctlCmd.setDefaultConfig => xsdfec_set_default_config d
    | XsdfecIoctlCmd.setIrq => xsdfec_set_irq d inp.enable_isr inp.enable_ecc_isr inp.copyFromBytes
    | XsdfecIoctlCmd.setTurbo => xsdfec_set_turbo d inp.turboScale inp.turboAlg inp.copyFromBytes
    | XsdfecIoctlCmd.getTurbo => xsdfec_get_turbo d inp.copyToUserOk
    | XsdfecIoctlCmd.addLdpcCodeParams => xsdfec_add_ldpc d inp.ldpc inp.copyFromBytes
    | XsdfecIoctlCmd.getLdpcCodeParams =>
        let r := xsdfec_get_ldpc_code_params d inp.ldpc inp.copyFromBytes inp.copyToUserOk
        (r.1, r.2.2)
    | XsdfecIoctlCmd.setOrder => xsdfec_set_order d inp.order
    | XsdfecIoctlCmd.setBypass => xsdfec_set_bypass d inp.bypass
    | XsdfecIoctlCmd.isActive => xsdfec_is_active d

/-! Frame lemmas: which device components each primitive leaves alone. -/

theorem devErr_regs (d : XsdfecDev) (e : LogEvent) : (devErr d e).regs = d.regs := rfl

theorem devErr_wrTrace (d : XsdfecDev) (e : LogEvent) : (devErr d e).wrTrace = d.wrTrace := rfl

theorem devErr_rdTrace (d : XsdfecDev) (e : LogEvent) : (devErr d e).rdTrace = d.rdTrace := rfl

theorem devErr_state (d : XsdfecDev) (e : LogEvent) : (devErr d e).state = d.state := rfl

theorem devErr_config (d : XsdfecDev) (e : LogEvent) : (devErr d e).config = d.config := rfl

theorem devErr_wr_protect (d : XsdfecDev) (e : LogEvent) :
    (devErr d e).wr_protect = d.wr_protect := rfl

theorem xsdfec_regwrite_config (d : XsdfecDev) (a v : Nat) :
    (xsdfec_regwrite d a v).config = d.config := by
  unfold xsdfec_regwrite
  split <;> rfl

theorem xsdfec_regwrite_state (d : XsdfecDev) (a v : Nat) :
    (xsdfec_regwrite d a v).state = d.state := by
  unfold xsdfec_regwrite
  split <;> rfl

theorem xsdfec_regwrite_wr_protect (d : XsdfecDev) (a v : Nat) :
    (xsdfec_regwrite d a v).wr_protect = d.wr_protect := by
  unfold xsdfec_regwrite
  split <;> rfl

theorem xsdfec_regwrite_rdTrace (d : XsdfecDev) (a v : Nat) :
    (xsdfec_regwrite d a v).rdTrace = d.rdTrace := by
  unfold xsdfec_regwrite
  split <;> rfl

theorem xsdfec_regwrite_notProtected (d : XsdfecDev) (a v : Nat) (h : d.wr_protect = false) :
    xsdfec_regwrite d a v =
      { d with
        regs := fun x => if x = a then u32 v else d.regs x,
        wrTrace := d.wrTrace ++ [(a, u32 v)] } := by
  unfold xsdfec_regwrite
  rw [h]
  simp

theorem xsdfec_wr_protect_config (d : XsdfecDev) (b : Bool) :
    (xsdfec_wr_protect d b).config = d.config := by
  unfold xsdfec_wr_protect
  split <;> simp [xsdfec_regwrite_config]

theorem xsdfec_wr_protect_state (d : XsdfecDev) (b : Bool) :
    (xsdfec_wr_protect d b).state = d.state := by
  unfold xsdfec_wr_protect
  split <;> simp [xsdfec_regwrite_state]

theorem writeTableLoop_config (d : XsdfecDev) (b o : Nat) (t : Nat → Nat) (len : Nat) :
    (writeTableLoop d b o t len).config = d.config := by
  induction len with
  | zero => rfl
  | succ m ih =>
      unfold writeTableLoop
      rw [xsdfec_regwrite_config, ih]

theorem writeTableLoop_state (d : XsdfecDev) (b o : Nat) (t : Nat → Nat) (len : Nat) :
    (writeTableLoop d b o t len).state = d.state := by
  induction len with
  | zero => rfl
  | succ m ih =>
      unfold writeTableLoop
      rw [xsdfec_regwrite_state, ih]

theorem writeTableLoop_wr_protect (d : XsdfecDev) (b o : Nat) (t : Nat → Nat) (len : Nat) :
    (writeTableLoop d b o t len).wr_protect = d.wr_protect := by
  induction len with
  | zero => rfl
  | succ m ih =>
      unfold writeTableLoop
      rw [xsdfec_regwrite_wr_protect, ih]

theorem writeTableLoop_wrTrace (d : XsdfecDev) (b o : Nat) (t : Nat → Nat) (len : Nat)
    (h : d.wr_protect = false) :
    (writeTableLoop d b o t len).wrTrace =
      d.wrTrace ++ (List.range len).map
        (fun i => (u32 (b + u32 ((o + i) * XSDFEC_REG_WIDTH_JUMP)), u32 (t i))) := by
  induction len with
  | zero => simp [writeTableLoop]
  | succ m ih =>
      unfold writeTableLoop
      rw [xsdfec_regwrite_notProtected _ _ _ (by rw [writeTableLoop_wr_protect]; exact h)]
      simp only [ih, List.range_succ, List.map_append, List.map_cons, List.map_nil,
        List.append_assoc]

/-- The bits of x above bit w (within u32 range) are zero exactly when
x < 2^w; this is what the C overflow checks of the form
(x & ~FIELD_MASK) compute. -/
theorem and_high_eq_zero_iff (x w : Nat) (hw : w ≤ 32) (hx : x < 2 ^ 32) :
    x &&& (2 ^ 32 - 2 ^ w) = 0 ↔ x < 2 ^ w := by
  have hmask : 2 ^ 32 - 2 ^ w = (2 ^ (32 - w) - 1) <<< w := by
    rw [Nat.shiftLeft_eq, Nat.sub_mul, one_mul, ← Nat.pow_add]
    rw [Nat.sub_add_cancel hw]
  constructor
  · intro h
    by_contra hlt
    push_neg at hlt
    have hx0 : x ≠ 0 := by
      have := Nat.pos_pow_of_pos w (by norm_num : 0 < 2)
      omega
    set l := Nat.log2 x with hl
    have hle : 2 ^ l ≤ x := Nat.log2_self_le hx0
    have hlt2 : x < 2 ^ (l + 1) := Nat.lt_log2_self
    have hdiv1 : x / 2 ^ l = 1 := by
      have h1 : 1 ≤ x / 2 ^ l := (Nat.one_le_div_iff (Nat.pos_pow_of_pos l (by norm_num))).mpr hle
      have h2 : x / 2 ^ l < 2 := by
        rw [Nat.div_lt_iff_lt_mul (Nat.pos_pow_of_pos l (by norm_num))]
        calc x < 2 ^ (l + 1) := hlt2
        _ = 2 ^ l * 2 := by ring
        _ ≤ 2 * 2 ^ l := by omega
      omega
    have hbit : x.testBit l = true := by
      rw [Nat.testBit_to_div_mod, hdiv1]
      rfl
    have hwl : w ≤ l := by
      have : 2 ^ w < 2 ^ (l + 1) := lt_of_le_of_lt hlt hlt2
      have := (Nat.pow_lt_pow_iff_right (by norm_num : 1 < 2)).mp this
      omega
    have hl32 : l < 32 := by
      have : 2 ^ l < 2 ^ 32 := lt_of_le_of_lt hle hx
      exact (Nat.pow_lt_pow_iff_right (by norm_num : 1 < 2)).mp this
    have hmb : ((2 : Nat) ^ 32 - 2 ^ w).testBit l = true := by
      rw [hmask, Nat.testBit_shiftLeft, Nat.testBit_two_pow_sub_one]
      simp [ge_iff_le, hwl]
      omega
    have hcontra : (x &&& (2 ^ 32 - 2 ^ w)).testBit l = true := by
      rw [Nat.testBit_and, hbit, hmb]
      rfl
    rw [h] at hcontra
    simp [Nat.zero_testBit] at hcontra
  · intro h
    apply Nat.eq_of_testBit_eq
    intro i
    rw [Nat.testBit_and, Nat.zero_testBit]
    by_cases hi : i < w
    · have hmz : ((2 : Nat) ^ 32 - 2 ^ w).testBit i = false := by
        rw [hmask, Nat.testBit_shiftLeft]
        simp [ge_iff_le]
        omega
      rw [hmz, Bool.and_false]
    · have hxz : x.testBit i = false := by
        apply Nat.testBit_lt_two_pow
        calc x < 2 ^ w := h
        _ ≤ 2 ^ i := Nat.pow_le_pow_right (by norm_num) (by omega)
      rw [hxz, Bool.false_and]

/-- Wrapping a left shift to u32 and masking with a shifted field mask is
masking the field to its width and shifting it, which is how the claim
states the register encodes. -/
theorem shiftLeft_mod_and_mask (x s w : Nat) (h : s + w ≤ 32) :
    (x <<< s % 2 ^ 32) &&& ((2 ^ w - 1) <<< s) = (x % 2 ^ w) <<< s := by
  apply Nat.eq_of_testBit_eq
  intro i
  simp only [Nat.testBit_and, Nat.testBit_mod_two_pow, Nat.testBit_shiftLeft,
    Nat.testBit_two_pow_sub_one, ge_iff_le]
  by_cases h1 : s ≤ i
  · by_cases h2 : i - s < w
    · have h3 : i < 32 := by omega
      simp [h1, h2, h3]
    · simp [h1, h2]
  · simp [h1]

theorem xsdfec_reg0_write_config (d : XsdfecDev) (n k o : Nat) :
    ((xsdfec_reg0_write d n k o).2).config = d.config := by
  simp only [xsdfec_reg0_write, apply_ite Prod.snd, apply_ite XsdfecDev.config,
    devErr_config, xsdfec_regwrite_config, ite_self]

theorem xsdfec_reg1_write_config (d : XsdfecDev) (a b c o : Nat) :
    ((xsdfec_reg1_write d a b c o).2).config = d.config := by
  simp only [xsdfec_reg1_write, apply_ite Prod.snd, apply_ite XsdfecDev.config,
    devErr_config, xsdfec_regwrite_config, ite_self]

theorem xsdfec_reg2_write_config (d : XsdfecDev) (a b c e f g o : Nat) :
    ((xsdfec_reg2_write d a b c e f g o).2).config = d.config := by
  simp only [xsdfec_reg2_write, apply_ite Prod.snd, apply_ite XsdfecDev.config,
    devErr_config, xsdfec_regwrite_config, ite_self]

theorem xsdfec_reg3_write_config (d : XsdfecDev) (a b c o : Nat) :
    ((xsdfec_reg3_write d a b c o).2).config = d.config := by
  simp only [xsdfec_reg3_write, apply_ite Prod.snd, apply_ite XsdfecDev.config,
    devErr_config, xsdfec_regwrite_config, ite_self]

theorem xsdfec_sc_table_write_config (d : XsdfecDev) (o : Nat) (t : Nat → Nat) (len : Nat) :
    ((xsdfec_sc_table_write d o t len).2).config = d.config := by
  simp only [xsdfec_sc_table_write, apply_ite Prod.snd, apply_ite XsdfecDev.config,
    devErr_config, writeTableLoop_config, ite_self]

theorem xsdfec_la_table_write_config (d : XsdfecDev) (o : Nat) (t : Nat → Nat) (len : Nat) :
    ((xsdfec_la_table_write d o t len).2).config = d.config := by
  simp only [xsdfec_la_table_write, apply_ite Prod.snd, apply_ite XsdfecDev.config,
    devErr_config, writeTableLoop_config, ite_self]

theorem xsdfec_qc_table_write_config (d : XsdfecDev) (o : Nat) (t : Nat → Nat) (len : Nat) :
    ((xsdfec_qc_table_write d o t len).2).config = d.config := by
  simp only [xsdfec_qc_table_write, apply_ite Prod.snd, apply_ite XsdfecDev.config,
    devErr_config, writeTableLoop_config, ite_self]

theorem xsdfec_add_ldpc_config (d : XsdfecDev) (l : LdpcParams) (cb : Nat) :
    ((xsdfec_add_ldpc d l cb).2).config = d.config := by
  simp only [xsdfec_add_ldpc, apply_ite Prod.snd, apply_ite XsdfecDev.config,
    devErr_config, xsdfec_reg0_write_config, xsdfec_reg1_write_config, xsdfec_reg2_write_config,
    xsdfec_reg3_write_config, xsdfec_sc_table_write_config, xsdfec_la_table_write_config,
    xsdfec_qc_table_write_config, xsdfec_wr_protect_config, ite_self]

/-! Concrete fixtures used by the closed theorems and the witnesses. -/

/-- A configuration with the LDPC code family and a valid decode order. -/
def cfgLdpc : XsdfecConfig :=
  { fec_id := 0, code := XsdfecCode.ldpcCode, order := 1,
    din_width_field := 0, din_words_field := 0, dout_width_field := 0, dout_words_field := 0 }

/-- A device with all registers zero, LDPC configuration, write protection
off, in the INIT state, with empty traces and counters. -/
def devZero : XsdfecDev :=
  { regs := fun _ => 0, wrTrace := [], rdTrace := [], logs := [],
    state := XsdfecState.init, config := cfgLdpc, wr_protect := false,
    isr_err_count := 0, cecc_count := 0, uecc_count := 0 }

/-- A constant table payload. -/
def tab9 : Nat → Nat := fun _ => 9

/-- devZero with the write-protect flag raised. -/
def devProt : XsdfecDev := { devZero with wr_protect := true }

/-- devZero configured for Turbo. -/
def devTurbo : XsdfecDev :=
  { devZero with config := { cfgLdpc with code := XsdfecCode.turboCode } }

/-- devZero with the code family still unset. -/
def devInvalid : XsdfecDev :=
  { devZero with config := { cfgLdpc with code := XsdfecCode.codeInvalid } }

/-- A small valid LDPC descriptor whose non-trivial field values expose the
decode bugs: every written field is nonzero where the decode returns 0. -/
def lC1 : LdpcParams :=
  { n := 4, k := 1, psize := 2, nlayers := 1, nqc := 1, nmqc := 1, nm := 3,
    norm_type := 1, no_packing := 1, special_qc := 0, no_final_parity := 1,
    max_schedule := 1, sc_off := 0, la_off := 0, qc_off := 0, code_id := 0,
    sc_table := tab9, la_table := tab9, qc_table := tab9 }

/-- C8: for every register address and value, a register write performed
while the write-protect flag is enabled performs no hardware access: the
register map, the write trace and the read trace are unchanged, so in
particular the target register's observable value is unchanged. -/
theorem c8_protected_regwrite_noop (d : XsdfecDev) (addr value : Nat)
    (h : d.wr_protect = true) :
    (xsdfec_regwrite d addr value).regs = d.regs ∧
    (xsdfec_regwrite d addr value).wrTrace = d.wrTrace ∧
    (xsdfec_regwrite d addr value).rdTrace = d.rdTrace ∧
    (xsdfec_regwrite d addr value).regs addr = d.regs addr := by
  unfold xsdfec_regwrite
  rw [h]
  simp only [if_true, devErr_regs, devErr_wrTrace, devErr_rdTrace, and_self]

/-- Witness for c8_protected_regwrite_noop at a concrete protected device. -/
theorem c8_witness :
    (xsdfec_regwrite devProt 8 5).regs = devProt.regs ∧
    (xsdfec_regwrite devProt 8 5).wrTrace = devProt.wrTrace ∧
    (xsdfec_regwrite devProt 8 5).rdTrace = devProt.rdTrace ∧
    (xsdfec_regwrite devProt 8 5).regs 8 = devProt.regs 8 :=
  c8_protected_regwrite_noop devProt 8 5 rfl

/-- C2: on the Turbo-configured path xsdfec_add_ldpc skips programming but
returns 0 (err still holds the successful copy_from_user result when the
source jumps to err_out), not an error; and when the code family is
Invalid it never adopts LDPC: the configured family is left Invalid. -/
theorem c2_add_ldpc_turbo_and_invalid (d : XsdfecDev) (l : LdpcParams) :
    (d.config.code = XsdfecCode.turboCode →
      xsdfec_add_ldpc d l 0 = (0, devErr d LogEvent.ldpcWriteCheckDT)) ∧
    (d.config.code = XsdfecCode.codeInvalid →
      ((xsdfec_add_ldpc d l 0).2).config.code = XsdfecCode.codeInvalid) := by
  constructor
  · intro h
    unfold xsdfec_add_ldpc
    rw [h]
    simp
  · intro h
    rw [xsdfec_add_ldpc_config, h]

/-- Witness for c2_add_ldpc_turbo_and_invalid: both implications
discharged at concrete devices. -/
theorem c2_witness :
    xsdfec_add_ldpc devTurbo lC1 0 = (0, devErr devTurbo LogEvent.ldpcWriteCheckDT) ∧
    ((xsdfec_add_ldpc devInvalid lC1 0).2).config.code = XsdfecCode.codeInvalid :=
  ⟨(c2_add_ldpc_turbo_and_invalid devTurbo lC1).1 rfl,
   (c2_add_ldpc_turbo_and_invalid devInvalid lC1).2 rfl⟩

/-- C1: the add/get round trip is broken on the code as written.  At the
concrete descriptor lC1 (written into a zeroed device with write
protection off), add succeeds and get succeeds, but k, no_packing, nm,
nmqc, norm_type, no_final_parity and max_schedule all read back as values
different from those written (the decode masks with the unshifted field
masks after shifting, so most fields collapse to 0), and the sc table
payload reads back 0 instead of 9 because the offsets are decoded from
the register address instead of the register value. -/
theorem c1_roundtrip_broken :
    (xsdfec_add_ldpc devZero lC1 0).1 = 0 ∧
    (xsdfec_get_ldpc_code_params (xsdfec_add_ldpc devZero lC1 0).2 lC1 0 true).1 = 0 ∧
    lC1.k = 1 ∧
    (xsdfec_get_ldpc_code_params (xsdfec_add_ldpc devZero lC1 0).2 lC1 0 true).2.1.k = 0 ∧
    lC1.no_packing = 1 ∧
    (xsdfec_get_ldpc_code_params (xsdfec_add_ldpc devZero lC1 0).2 lC1 0 true).2.1.no_packing = 0 ∧
    lC1.nm = 3 ∧
    (xsdfec_get_ldpc_code_params (xsdfec_add_ldpc devZero lC1 0).2 lC1 0 true).2.1.nm = 0 ∧
    lC1.norm_type = 1 ∧
    (xsdfec_get_ldpc_code_params (xsdfec_add_ldpc devZero lC1 0).2 lC1 0 true).2.1.norm_type = 0 ∧
    lC1.no_final_parity = 1 ∧
    (xsdfec_get_ldpc_code_params
      (xsdfec_add_ldpc devZero lC1 0).2 lC1 0 true).2.1.no_final_parity = 0 ∧
    lC1.max_schedule = 1 ∧
    (xsdfec_get_ldpc_code_params (xsdfec_add_ldpc devZero lC1 0).2 lC1 0 true).2.1.max_schedule = 0 ∧
    lC1.sc_table 0 = 9 ∧
    (xsdfec_get_ldpc_code_params (xsdfec_add_ldpc devZero lC1 0).2 lC1 0 true).2.1.sc_table 0 = 0 := by
  decide

/-- Device for the C5 scenario: no ECC bits set, general status bits 0 and
1 set, interrupts otherwise idle, write protection off. -/
def devC5 : XsdfecDev :=
  { devZero with
    regs := fun a => if a = XSDFEC_ISR_ADDR then 3 else 0,
    state := XsdfecState.started }

/-- C5: with no uncorrectable-ECC bits set and general-status error bits
0x3 set, the fault handler increments the ISR-error counter by their
population count (2), escalates to NEEDS_RESET and marks the event fatal,
but the clearing write targets the ECC status register (0x2c), not the
general status register (0x1c): the general status register keeps its
value and is never written. -/
theorem c5_isr_clear_targets_ecc_register :
    (xsdfec_irq_thread devC5).dev.isr_err_count = 2 ∧
    (xsdfec_irq_thread devC5).dev.state = XsdfecState.needsReset ∧
    (xsdfec_irq_thread devC5).fatal = true ∧
    (xsdfec_irq_thread devC5).dev.regs XSDFEC_ISR_ADDR = 3 ∧
    ((xsdfec_irq_thread devC5).dev.wrTrace.filter (fun e => e.1 == XSDFEC_ISR_ADDR)) = [] ∧
    ((xsdfec_irq_thread devC5).dev.wrTrace.filter (fun e => e.1 == XSDFEC_ECC_ISR_ADDR)) =
      [(XSDFEC_ECC_ISR_ADDR, 0)] := by
  decide

/-- C3 counterexample: for the shared-scale table, offset 2^30 and length
1 satisfy the claim's precondition (offset + length) * 4 > depth, but the
u32 computation of the bound wraps to 4, the check passes, no -EINVAL is
returned and one hardware register write is performed. -/
theorem c3_counterexample :
    XSDFEC_SC_TABLE_DEPTH < XSDFEC_REG_WIDTH_JUMP * (0x40000000 + 1) ∧
    (xsdfec_sc_table_write devZero 0x40000000 tab9 1).1 = 1 ∧
    (xsdfec_sc_table_write devZero 0x40000000 tab9 1).2.wrTrace =
      [(XSDFEC_LDPC_SC_TABLE_ADDR_BASE, 9)] := by
  decide

/-- Device for the C6 counterexample: LDPC family, matching hardware code
register, valid order, but write protection currently enabled. -/
def devC6 : XsdfecDev :=
  { devZero with
    regs := fun a => if a = XSDFEC_FEC_CODE_ADDR then 1 else 0,
    wr_protect := true,
    state := XsdfecState.stopped }

/-- C6 counterexample: all three of the claim's preconditions hold at
devC6, start returns success and moves the state to STARTED, yet no
hardware register is written at all: because write protection is enabled
on entry, the AXI-stream enable write (and the write-protection register
writes) are dropped by xsdfec_regwrite, so the claim's "writes the
AXI-stream enable bits" does not happen. -/
theorem c6_counterexample :
    devC6.config.code ≠ XsdfecCode.codeInvalid ∧
    devC6.regs XSDFEC_FEC_CODE_ADDR &&& 0x1 = codeVal devC6.config.code - 1 ∧
    devC6.config.order ≠ XSDFEC_INVALID_ORDER ∧
    (xsdfec_start devC6).1 = 0 ∧
    (xsdfec_start devC6).2.state = XsdfecState.started ∧
    (xsdfec_start devC6).2.wrTrace = [] ∧
    (xsdfec_start devC6).2.regs XSDFEC_AXIS_ENABLE_ADDR = 0 := by
  decide

/-- C9 counterexample: K = 2^31 exceeds the declared K width (at most 16
bits per the descriptor contract, 15 usable bits per the mask), yet
xsdfec_reg0_write logs nothing at all (its check tests k & 0x7fff0000,
which misses bit 31), masks the field to 0 and writes the register
without returning an error. -/
theorem c9_counterexample :
    2 ^ 16 ≤ 2 ^ 31 ∧
    (xsdfec_reg0_write devZero 0 (2 ^ 31) 0).1 = 0 ∧
    (xsdfec_reg0_write devZero 0 (2 ^ 31) 0).2.logs = [] ∧
    (xsdfec_reg0_write devZero 0 (2 ^ 31) 0).2.wrTrace =
      [(XSDFEC_LDPC_CODE_REG0_ADDR_BASE, 0)] := by
  decide

theorem ite_devErr_logs (d : XsdfecDev) (c : Prop) [Decidable c] (e : LogEvent) :
    (if c then devErr d e else d).logs = d.logs ++ (if c then [e] else []) := by
  split <;> simp [devErr]

theorem ite_devErr_wrTrace (d : XsdfecDev) (c : Prop) [Decidable c] (e : LogEvent) :
    (if c then devErr d e else d).wrTrace = d.wrTrace := by
  split <;> rfl

theorem ite_devErr_wr_protect (d : XsdfecDev) (c : Prop) [Decidable c] (e : LogEvent) :
    (if c then devErr d e else d).wr_protect = d.wr_protect := by
  split <;> rfl

theorem ite_devErr_regs (d : XsdfecDev) (c : Prop) [Decidable c] (e : LogEvent) :
    (if c then devErr d e else d).regs = d.regs := by
  split <;> rfl

theorem xsdfec_reg0_write_parts (d : XsdfecDev) (n k o : Nat)
    (ho : o ≤ 31) (hwp : d.wr_protect = false) :
    (xsdfec_reg0_write d n k o).1 = 0 ∧
    ((xsdfec_reg0_write d n k o).2).logs = d.logs ++
      ((if n &&& 0xFFFF0000 ≠ 0 then [LogEvent.nBeyond16Bits] else []) ++
       (if k &&& XSDFEC_REG0_K_MASK ≠ 0 then [LogEvent.kBeyond16Bits] else [])) ∧
    ((xsdfec_reg0_write d n k o).2).wrTrace = d.wrTrace ++
      [(XSDFEC_LDPC_CODE_REG0_ADDR_BASE + o * XSDFEC_LDPC_REG_JUMP,
        u32 ((u32 (k <<< XSDFEC_REG0_K_LSB) &&& XSDFEC_REG0_K_MASK) |||
             ((n &&& XSDFEC_REG0_N_MASK) <<< XSDFEC_REG0_N_LSB)))] := by
  have hj : u32 (o * XSDFEC_LDPC_REG_JUMP) = o * XSDFEC_LDPC_REG_JUMP := by
    unfold u32 XSDFEC_LDPC_REG_JUMP
    exact Nat.mod_eq_of_lt (by omega)
  have haddr : u32 (XSDFEC_LDPC_CODE_REG0_ADDR_BASE + u32 (o * XSDFEC_LDPC_REG_JUMP)) =
      XSDFEC_LDPC_CODE_REG0_ADDR_BASE + o * XSDFEC_LDPC_REG_JUMP := by
    rw [hj]
    unfold u32 XSDFEC_LDPC_CODE_REG0_ADDR_BASE XSDFEC_LDPC_REG_JUMP
    exact Nat.mod_eq_of_lt (by omega)
  have hguard : ¬ (XSDFEC_LDPC_CODE_REG0_ADDR_BASE + o * XSDFEC_LDPC_REG_JUMP >
      XSDFEC_LDPC_CODE_REG0_ADDR_HIGH) := by
    unfold XSDFEC_LDPC_CODE_REG0_ADDR_BASE XSDFEC_LDPC_REG_JUMP XSDFEC_LDPC_CODE_REG0_ADDR_HIGH
    omega
  unfold xsdfec_reg0_write
  rw [haddr, if_neg hguard]
  refine ⟨rfl, ?_, ?_⟩ <;>
    simp only [xsdfec_regwrite, ite_devErr_wr_protect, hwp, Bool.false_eq_true, if_false,
      ite_devErr_logs, ite_devErr_wrTrace, List.append_assoc]

theorem xsdfec_reg2_write_parts (d : XsdfecDev)
    (nlayers nmqc norm_type special_qc no_final_parity max_schedule o : Nat)
    (ho : o ≤ 31) (hwp : d.wr_protect = false) :
    (xsdfec_reg2_write d nlayers nmqc norm_type special_qc no_final_parity max_schedule o).1 = 0 ∧
    ((xsdfec_reg2_write d nlayers nmqc norm_type special_qc no_final_parity
        max_schedule o).2).logs = d.logs ++
      ((if nlayers &&& 0xFFFFFE00 ≠ 0 then [LogEvent.nlayersExceeds9Bits] else []) ++
       (if nmqc &&& 0xFFFFF800 ≠ 0 then [LogEvent.nmqcExceeds11Bits] else []) ++
       (if norm_type > 1 then [LogEvent.normTypeInvalid] else []) ++
       (if special_qc > 1 then [LogEvent.specialQcInvalid] else []) ++
       (if no_final_parity > 1 then [LogEvent.noFinalParityInvalid] else []) ++
       (if max_schedule &&& 0xFFFFFFFC ≠ 0 then [LogEvent.maxScheduleExceeds2Bits] else [])) ∧
    ((xsdfec_reg2_write d nlayers nmqc norm_type special_qc no_final_parity
        max_schedule o).2).wrTrace = d.wrTrace ++
      [(XSDFEC_LDPC_CODE_REG2_ADDR_BASE + o * XSDFEC_LDPC_REG_JUMP,
        u32 ((u32 (max_schedule <<< XSDFEC_REG2_MAX_SCHEDULE_LSB) &&& XSDFEC_REG2_MAX_SCHEDULE_MASK) |||
             (u32 (no_final_parity <<< XSDFEC_REG2_NO_FINAL_PARITY_LSB) &&& XSDFEC_REG2_NO_FINAL_PARITY_MASK) |||
             (u32 (special_qc <<< XSDFEC_REG2_SPEICAL_QC_LSB) &&& XSDFEC_REG2_SPECIAL_QC_MASK) |||
             (u32 (norm_type <<< XSDFEC_REG2_NORM_TYPE_LSB) &&& XSDFEC_REG2_NORM_TYPE_MASK) |||
             (u32 (nmqc <<< XSDFEC_REG2_NMQC_LSB) &&& XSDFEC_REG2_NNMQC_MASK) |||
             (nlayers &&& XSDFEC_REG2_NLAYERS_MASK)))] := by
  have hj : u32 (o * XSDFEC_LDPC_REG_JUMP) = o * XSDFEC_LDPC_REG_JUMP := by
    unfold u32 XSDFEC_LDPC_REG_JUMP
    exact Nat.mod_eq_of_lt (by omega)
  have haddr : u32 (XSDFEC_LDPC_CODE_REG2_ADDR_BASE + u32 (o * XSDFEC_LDPC_REG_JUMP)) =
      XSDFEC_LDPC_CODE_REG2_ADDR_BASE + o * XSDFEC_LDPC_REG_JUMP := by
    rw [hj]
    unfold u32 XSDFEC_LDPC_CODE_REG2_ADDR_BASE XSDFEC_LDPC_REG_JUMP
    exact Nat.mod_eq_of_lt (by omega)
  have hguard : ¬ (XSDFEC_LDPC_CODE_REG2_ADDR_BASE + o * XSDFEC_LDPC_REG_JUMP >
      XSDFEC_LDPC_CODE_REG2_ADDR_HIGH) := by
    unfold XSDFEC_LDPC_CODE_REG2_ADDR_BASE XSDFEC_LDPC_REG_JUMP XSDFEC_LDPC_CODE_REG2_ADDR_HIGH
    omega
  unfold xsdfec_reg2_write
  rw [haddr, if_neg hguard]
  refine ⟨rfl, ?_, ?_⟩ <;>
    simp only [xsdfec_regwrite, ite_devErr_wr_protect, hwp, Bool.false_eq_true, if_false,
      ite_devErr_logs, ite_devErr_wrTrace, List.append_assoc]

theorem or_lt_32 (a b : Nat) (ha : a < 2 ^ 32) (hb : b < 2 ^ 32) : a ||| b < 2 ^ 32 :=
  Nat.or_lt_two_pow ha hb

/-- C9 (amended): for xsdfec_reg0_write and xsdfec_reg2_write with the
register offset in range and write protection off, the call returns 0 (no
error for out-of-range field values) and the word written is the OR of
each field reduced modulo its declared width and shifted to its offset.
Every reg2 field, and N in reg0, is logged exactly when its value exceeds
its declared width; K however is logged exactly when k & 0x7fff0000 is
nonzero, so an out-of-range K whose excess bits lie outside bits 16..30
(such as bit 31) is masked silently, which is the one deviation from the
claim as stated. -/
theorem c9_amended (d : XsdfecDev)
    (n k nlayers nmqc norm_type special_qc no_final_parity max_schedule o : Nat)
    (hn : n < 2 ^ 32) (hnl : nlayers < 2 ^ 32) (hnm : nmqc < 2 ^ 32) (hms : max_schedule < 2 ^ 32)
    (ho : o ≤ 31) (hwp : d.wr_protect = false) :
    (xsdfec_reg0_write d n k o).1 = 0 ∧
    ((xsdfec_reg0_write d n k o).2).logs = d.logs ++
      ((if 2 ^ 16 ≤ n then [LogEvent.nBeyond16Bits] else []) ++
       (if k &&& 0x7fff0000 ≠ 0 then [LogEvent.kBeyond16Bits] else [])) ∧
    ((xsdfec_reg0_write d n k o).2).wrTrace = d.wrTrace ++
      [(XSDFEC_LDPC_CODE_REG0_ADDR_BASE + o * XSDFEC_LDPC_REG_JUMP,
        ((k % 2 ^ 15) <<< 16) ||| (n % 2 ^ 16))] ∧
    (xsdfec_reg2_write d nlayers nmqc norm_type special_qc no_final_parity max_schedule o).1 = 0 ∧
    ((xsdfec_reg2_write d nlayers nmqc norm_type special_qc no_final_parity
        max_schedule o).2).logs = d.logs ++
      ((if 2 ^ 9 ≤ nlayers then [LogEvent.nlayersExceeds9Bits] else []) ++
       (if 2 ^ 11 ≤ nmqc then [LogEvent.nmqcExceeds11Bits] else []) ++
       (if 1 < norm_type then [LogEvent.normTypeInvalid] else []) ++
       (if 1 < special_qc then [LogEvent.specialQcInvalid] else []) ++
       (if 1 < no_final_parity then [LogEvent.noFinalParityInvalid] else []) ++
       (if 2 ^ 2 ≤ max_schedule then [LogEvent.maxScheduleExceeds2Bits] else [])) ∧
    ((xsdfec_reg2_write d nlayers nmqc norm_type special_qc no_final_parity
        max_schedule o).2).wrTrace = d.wrTrace ++
      [(XSDFEC_LDPC_CODE_REG2_ADDR_BASE + o * XSDFEC_LDPC_REG_JUMP,
        ((max_schedule % 2 ^ 2) <<< 23) ||| ((no_final_parity % 2 ^ 1) <<< 22) |||
        ((special_qc % 2 ^ 1) <<< 21) ||| ((norm_type % 2 ^ 1) <<< 20) |||
        ((nmqc % 2 ^ 11) <<< 9) ||| (nlayers % 2 ^ 9))] := by
  obtain ⟨h01, h0logs, h0tr⟩ := xsdfec_reg0_write_parts d n k o ho hwp
  obtain ⟨h21, h2logs, h2tr⟩ :=
    xsdfec_reg2_write_parts d nlayers nmqc norm_type special_qc no_final_parity max_schedule o ho hwp
  have hhi : ∀ x w : Nat, w ≤ 32 → x < 2 ^ 32 → ((x &&& (2 ^ 32 - 2 ^ w) ≠ 0) ↔ 2 ^ w ≤ x) := by
    intro x w hw hx
    rw [Ne, and_high_eq_zero_iff x w hw hx, not_lt]
  have hsm : ∀ x s w : Nat, s + w ≤ 32 →
      u32 (x <<< s) &&& ((2 ^ w - 1) <<< s) = (x % 2 ^ w) <<< s := by
    intro x s w hsw
    unfold u32
    rw [show (4294967296 : Nat) = 2 ^ 32 by norm_num]
    exact shiftLeft_mod_and_mask x s w hsw
  have hshb : ∀ x s w : Nat, s + w ≤ 32 → (x % 2 ^ w) <<< s < 2 ^ 32 := by
    intro x s w hsw
    rw [Nat.shiftLeft_eq]
    have h1 : x % 2 ^ w < 2 ^ w := Nat.mod_lt x (Nat.pos_pow_of_pos w (by norm_num))
    have hp : 0 < 2 ^ s := Nat.pos_pow_of_pos s (by norm_num)
    have h2 : (x % 2 ^ w) * 2 ^ s < 2 ^ w * 2 ^ s := mul_lt_mul_of_pos_right h1 hp
    have h3 : (2 : Nat) ^ w * 2 ^ s = 2 ^ (w + s) := by rw [Nat.pow_add]
    have h4 : (2 : Nat) ^ (w + s) ≤ 2 ^ 32 := Nat.pow_le_pow_right (by norm_num) (by omega)
    omega
  refine ⟨h01, ?_, ?_, h21, ?_, ?_⟩
  · rw [h0logs]
    have e1 : (if n &&& 0xFFFF0000 ≠ 0 then [LogEvent.nBeyond16Bits] else []) =
        (if 2 ^ 16 ≤ n then [LogEvent.nBeyond16Bits] else []) :=
      if_congr (by rw [show (0xFFFF0000 : Nat) = 2 ^ 32 - 2 ^ 16 by norm_num]
                   exact hhi n 16 (by norm_num) hn) rfl rfl
    rw [e1]
    rfl
  · rw [h0tr]
    have hk1 : u32 (k <<< XSDFEC_REG0_K_LSB) &&& XSDFEC_REG0_K_MASK = (k % 2 ^ 15) <<< 16 := by
      unfold XSDFEC_REG0_K_LSB XSDFEC_REG0_K_MASK
      rw [show (0x7fff0000 : Nat) = (2 ^ 15 - 1) <<< 16 by decide]
      exact hsm k 16 15 (by norm_num)
    have hn1 : (n &&& XSDFEC_REG0_N_MASK) <<< XSDFEC_REG0_N_LSB = n % 2 ^ 16 := by
      unfold XSDFEC_REG0_N_MASK XSDFEC_REG0_N_LSB
      rw [Nat.shiftLeft_zero, show (0x0000FFFF : Nat) = 2 ^ 16 - 1 by norm_num,
        Nat.and_pow_two_sub_one_eq_mod]
    rw [hk1, hn1]
    have hb : ((k % 2 ^ 15) <<< 16) ||| (n % 2 ^ 16) < 2 ^ 32 :=
      or_lt_32 _ _ (hshb k 16 15 (by norm_num))
        (lt_trans (Nat.mod_lt n (by norm_num)) (by norm_num))
    unfold u32
    rw [show (4294967296 : Nat) = 2 ^ 32 by norm_num, Nat.mod_eq_of_lt hb]
  · rw [h2logs]
    have e1 : (if nlayers &&& 0xFFFFFE00 ≠ 0 then [LogEvent.nlayersExceeds9Bits] else []) =
        (if 2 ^ 9 ≤ nlayers then [LogEvent.nlayersExceeds9Bits] else []) :=
      if_congr (by rw [show (0xFFFFFE00 : Nat) = 2 ^ 32 - 2 ^ 9 by norm_num]
                   exact hhi nlayers 9 (by norm_num) hnl) rfl rfl
    have e2 : (if nmqc &&& 0xFFFFF800 ≠ 0 then [LogEvent.nmqcExceeds11Bits] else []) =
        (if 2 ^ 11 ≤ nmqc then [LogEvent.nmqcExceeds11Bits] else []) :=
      if_congr (by rw [show (0xFFFFF800 : Nat) = 2 ^ 32 - 2 ^ 11 by norm_num]
                   exact hhi nmqc 11 (by norm_num) hnm) rfl rfl
    have e6 : (if max_schedule &&& 0xFFFFFFFC ≠ 0 then [LogEvent.maxScheduleExceeds2Bits] else []) =
        (if 2 ^ 2 ≤ max_schedule then [LogEvent.maxScheduleExceeds2Bits] else []) :=
      if_congr (by rw [show (0xFFFFFFFC : Nat) = 2 ^ 32 - 2 ^ 2 by norm_num]
                   exact hhi max_schedule 2 (by norm_num) hms) rfl rfl
    rw [e1, e2, e6]
  · rw [h2tr]
    have hms1 : u32 (max_schedule <<< XSDFEC_REG2_MAX_SCHEDULE_LSB) &&&
        XSDFEC_REG2_MAX_SCHEDULE_MASK = (max_schedule % 2 ^ 2) <<< 23 := by
      unfold XSDFEC_REG2_MAX_SCHEDULE_LSB XSDFEC_REG2_MAX_SCHEDULE_MASK
      rw [show (0x01800000 : Nat) = (2 ^ 2 - 1) <<< 23 by decide]
      exact hsm max_schedule 23 2 (by norm_num)
    have hnfp1 : u32 (no_final_parity <<< XSDFEC_REG2_NO_FINAL_PARITY_LSB) &&&
        XSDFEC_REG2_NO_FINAL_PARITY_MASK = (no_final_parity % 2 ^ 1) <<< 22 := by
      unfold XSDFEC_REG2_NO_FINAL_PARITY_LSB XSDFEC_REG2_NO_FINAL_PARITY_MASK
      rw [show (0x00400000 : Nat) = (2 ^ 1 - 1) <<< 22 by decide]
      exact hsm no_final_parity 22 1 (by norm_num)
    have hsq1 : u32 (special_qc <<< XSDFEC_REG2_SPEICAL_QC_LSB) &&&
        XSDFEC_REG2_SPECIAL_QC_MASK = (special_qc % 2 ^ 1) <<< 21 := by
      unfold XSDFEC_REG2_SPEICAL_QC_LSB XSDFEC_REG2_SPECIAL_QC_MASK
      rw [show (0x00200000 : Nat) = (2 ^ 1 - 1) <<< 21 by decide]
      exact hsm special_qc 21 1 (by norm_num)
    have hnt1 : u32 (norm_type <<< XSDFEC_REG2_NORM_TYPE_LSB) &&&
        XSDFEC_REG2_NORM_TYPE_MASK = (norm_type % 2 ^ 1) <<< 20 := by
      unfold XSDFEC_REG2_NORM_TYPE_LSB XSDFEC_REG2_NORM_TYPE_MASK
      rw [show (0x00100000 : Nat) = (2 ^ 1 - 1) <<< 20 by decide]
      exact hsm norm_type 20 1 (by norm_num)
    have hnmqc1 : u32 (nmqc <<< XSDFEC_REG2_NMQC_LSB) &&& XSDFEC_REG2_NNMQC_MASK =
        (nmqc % 2 ^ 11) <<< 9 := by
      unfold XSDFEC_REG2_NMQC_LSB XSDFEC_REG2_NNMQC_MASK
      rw [show (0x000FFE00 : Nat) = (2 ^ 11 - 1) <<< 9 by decide]
      exact hsm nmqc 9 11 (by norm_num)
    have hnl1 : nlayers &&& XSDFEC_REG2_NLAYERS_MASK = nlayers % 2 ^ 9 := by
      unfold XSDFEC_REG2_NLAYERS_MASK
      rw [show (0x000001FF : Nat) = 2 ^ 9 - 1 by norm_num, Nat.and_pow_two_sub_one_eq_mod]
    rw [hms1, hnfp1, hsq1, hnt1, hnmqc1, hnl1]
    have hb : ((max_schedule % 2 ^ 2) <<< 23) ||| ((no_final_parity % 2 ^ 1) <<< 22) |||
        ((special_qc % 2 ^ 1) <<< 21) ||| ((norm_type % 2 ^ 1) <<< 20) |||
        ((nmqc % 2 ^ 11) <<< 9) ||| (nlayers % 2 ^ 9) < 2 ^ 32 := by
      refine or_lt_32 _ _ (or_lt_32 _ _ (or_lt_32 _ _ (or_lt_32 _ _ (or_lt_32 _ _ ?_ ?_) ?_) ?_) ?_) ?_
      · exact hshb max_schedule 23 2 (by norm_num)
      · exact hshb no_final_parity 22 1 (by norm_num)
      · exact hshb special_qc 21 1 (by norm_num)
      · exact hshb norm_type 20 1 (by norm_num)
      · exact hshb nmqc 9 11 (by norm_num)
      · exact lt_trans (Nat.mod_lt nlayers (by norm_num)) (by norm_num)
    unfold u32
    rw [show (4294967296 : Nat) = 2 ^ 32 by norm_num, Nat.mod_eq_of_lt hb]


/-- Witness for c9_amended at concrete field values. -/
theorem c9_amended_witness :
    (xsdfec_reg0_write devZero 70000 (2 ^ 31) 1).1 = 0 ∧
    ((xsdfec_reg0_write devZero 70000 (2 ^ 31) 1).2).logs = devZero.logs ++
      ((if 2 ^ 16 ≤ 70000 then [LogEvent.nBeyond16Bits] else []) ++
       (if 2 ^ 31 &&& 0x7fff0000 ≠ 0 then [LogEvent.kBeyond16Bits] else [])) ∧
    ((xsdfec_reg0_write devZero 70000 (2 ^ 31) 1).2).wrTrace = devZero.wrTrace ++
      [(XSDFEC_LDPC_CODE_REG0_ADDR_BASE + 1 * XSDFEC_LDPC_REG_JUMP,
        ((2 ^ 31 % 2 ^ 15) <<< 16) ||| (70000 % 2 ^ 16))] ∧
    (xsdfec_reg2_write devZero 3 5 1 0 0 2 1).1 = 0 ∧
    ((xsdfec_reg2_write devZero 3 5 1 0 0 2 1).2).logs = devZero.logs ++
      ((if 2 ^ 9 ≤ 3 then [LogEvent.nlayersExceeds9Bits] else []) ++
       (if 2 ^ 11 ≤ 5 then [LogEvent.nmqcExceeds11Bits] else []) ++
       (if 1 < 1 then [LogEvent.normTypeInvalid] else []) ++
       (if 1 < 0 then [LogEvent.specialQcInvalid] else []) ++
       (if 1 < 0 then [LogEvent.noFinalParityInvalid] else []) ++
       (if 2 ^ 2 ≤ 2 then [LogEvent.maxScheduleExceeds2Bits] else [])) ∧
    ((xsdfec_reg2_write devZero 3 5 1 0 0 2 1).2).wrTrace = devZero.wrTrace ++
      [(XSDFEC_LDPC_CODE_REG2_ADDR_BASE + 1 * XSDFEC_LDPC_REG_JUMP,
        ((2 % 2 ^ 2) <<< 23) ||| ((0 % 2 ^ 1) <<< 22) |||
        ((0 % 2 ^ 1) <<< 21) ||| ((1 % 2 ^ 1) <<< 20) |||
        ((5 % 2 ^ 11) <<< 9) ||| (3 % 2 ^ 9))] :=
  c9_amended devZero 70000 (2 ^ 31) 3 5 1 0 0 2 1 (by norm_num) (by norm_num) (by norm_num)
    (by norm_num) (by norm_num) rfl

/-- C3 (amended): whenever the u32 bound computation cannot wrap
(offset + length < 2^30) and (offset + length) * 4 exceeds the table
depth constant, each of the three table write operations and each of the
three table read operations returns -EINVAL and performs zero hardware
register accesses: the register map, the write trace and the read trace
are unchanged (only a log entry is recorded), and the read does not touch
the destination table.  The counterexample shows the claim fails without
the no-wrap condition. -/
theorem c3_amended (d : XsdfecDev) (t : Nat → Nat) (offset len : Nat)
    (hov : offset + len < 2 ^ 30) :
    (XSDFEC_REG_WIDTH_JUMP * (offset + len) > XSDFEC_SC_TABLE_DEPTH →
      xsdfec_sc_table_write d offset t len = (-22, devErr d LogEvent.scTableExceeded) ∧
      xsdfec_collect_sc_table d offset t len = (-22, t, devErr d LogEvent.scTableExceeded)) ∧
    (XSDFEC_REG_WIDTH_JUMP * (offset + len) > XSDFEC_LA_TABLE_DEPTH →
      xsdfec_la_table_write d offset t len = (-22, devErr d LogEvent.laTableExceeded) ∧
      xsdfec_collect_la_table d offset t len = (-22, t, devErr d LogEvent.laTableExceeded)) ∧
    (XSDFEC_REG_WIDTH_JUMP * (offset + len) > XSDFEC_QC_TABLE_DEPTH →
      xsdfec_qc_table_write d offset t len = (-22, devErr d LogEvent.qcTableExceeded) ∧
      xsdfec_collect_qc_table d offset t len = (-22, t, devErr d LogEvent.qcTableExceeded)) := by
  have hguard : ∀ depth : Nat, XSDFEC_REG_WIDTH_JUMP * (offset + len) > depth →
      u32 (XSDFEC_REG_WIDTH_JUMP * u32 (offset + len)) > depth := by
    intro depth hgt
    unfold u32 XSDFEC_REG_WIDTH_JUMP at *
    omega
  refine ⟨fun h => ?_, fun h => ?_, fun h => ?_⟩ <;>
    first
    | exact ⟨by unfold xsdfec_sc_table_write; rw [if_pos (hguard _ h)],
             by unfold xsdfec_collect_sc_table; rw [if_pos (hguard _ h)]⟩
    | exact ⟨by unfold xsdfec_la_table_write; rw [if_pos (hguard _ h)],
             by unfold xsdfec_collect_la_table; rw [if_pos (hguard _ h)]⟩
    | exact ⟨by unfold xsdfec_qc_table_write; rw [if_pos (hguard _ h)],
             by unfold xsdfec_collect_qc_table; rw [if_pos (hguard _ h)]⟩

/-- Witness for c3_amended: offset 0x2000, length 0 exceeds all three
depths at once. -/
theorem c3_amended_witness :
    xsdfec_sc_table_write devZero 0x2000 tab9 0 =
      (-22, devErr devZero LogEvent.scTableExceeded) ∧
    xsdfec_collect_sc_table devZero 0x2000 tab9 0 =
      (-22, tab9, devErr devZero LogEvent.scTableExceeded) ∧
    xsdfec_la_table_write devZero 0x2000 tab9 0 =
      (-22, devErr devZero LogEvent.laTableExceeded) ∧
    xsdfec_collect_la_table devZero 0x2000 tab9 0 =
      (-22, tab9, devErr devZero LogEvent.laTableExceeded) ∧
    xsdfec_qc_table_write devZero 0x2000 tab9 0 =
      (-22, devErr devZero LogEvent.qcTableExceeded) ∧
    xsdfec_collect_qc_table devZero 0x2000 tab9 0 =
      (-22, tab9, devErr devZero LogEvent.qcTableExceeded) := by
  obtain ⟨h1, h2, h3⟩ := c3_amended devZero tab9 0x2000 0 (by norm_num)
  obtain ⟨h1a, h1b⟩ := h1 (by decide)
  obtain ⟨h2a, h2b⟩ := h2 (by decide)
  obtain ⟨h3a, h3b⟩ := h3 (by decide)
  exact ⟨h1a, h1b, h2a, h2b, h3a, h3b⟩

theorem xsdfec_wr_protect_true_parts (d : XsdfecDev) (h : d.wr_protect = false) :
    (xsdfec_wr_protect d true).wrTrace = d.wrTrace ++
      [(XSDFEC_CODE_WR_PROTECT_ADDR, XSDFEC_WRITE_PROTECT_ENABLE),
       (XSDFEC_AXI_WR_PROTECT_ADDR, XSDFEC_WRITE_PROTECT_ENABLE)] ∧
    (xsdfec_wr_protect d true).wr_protect = true ∧
    (xsdfec_wr_protect d true).state = d.state := by
  unfold xsdfec_wr_protect
  rw [if_pos rfl]
  rw [xsdfec_regwrite_notProtected _ _ _ h]
  simp only []
  rw [xsdfec_regwrite_notProtected _ _ _ (by exact h)]
  refine ⟨?_, by trivial, by trivial⟩
  simp [u32, XSDFEC_WRITE_PROTECT_ENABLE]

/-- C6 (amended): xsdfec_start fails with -EINVAL and leaves the state
unchanged (and writes nothing) when the code family is Invalid, when the
hardware code register does not match the configured family, or when the
decode order is Invalid; when all three preconditions hold and write
protection is not already enabled on entry, it writes the AXI-stream
enable bits, asserts write protection (flag and both protection
registers) and sets the state to STARTED.  The counterexample shows that
with write protection already enabled the register writes are suppressed
while the state still becomes STARTED. -/
theorem c6_amended (d : XsdfecDev) :
    (d.config.code = XsdfecCode.codeInvalid →
      xsdfec_start d = (-22, devErr d LogEvent.setCodeBeforeStart)) ∧
    (d.config.code ≠ XsdfecCode.codeInvalid →
      d.regs XSDFEC_FEC_CODE_ADDR &&& 0x1 ≠ codeVal d.config.code - 1 →
      (xsdfec_start d).1 = -22 ∧ (xsdfec_start d).2.state = d.state ∧
      (xsdfec_start d).2.wrTrace = d.wrTrace ∧ (xsdfec_start d).2.regs = d.regs) ∧
    (d.config.code ≠ XsdfecCode.codeInvalid →
      d.regs XSDFEC_FEC_CODE_ADDR &&& 0x1 = codeVal d.config.code - 1 →
      d.config.order = XSDFEC_INVALID_ORDER →
      (xsdfec_start d).1 = -22 ∧ (xsdfec_start d).2.state = d.state ∧
      (xsdfec_start d).2.wrTrace = d.wrTrace ∧ (xsdfec_start d).2.regs = d.regs) ∧
    (d.config.code ≠ XsdfecCode.codeInvalid →
      d.regs XSDFEC_FEC_CODE_ADDR &&& 0x1 = codeVal d.config.code - 1 →
      d.config.order ≠ XSDFEC_INVALID_ORDER →
      d.wr_protect = false →
      (xsdfec_start d).1 = 0 ∧ (xsdfec_start d).2.state = XsdfecState.started ∧
      (xsdfec_start d).2.wr_protect = true ∧
      (xsdfec_start d).2.wrTrace = d.wrTrace ++
        [(XSDFEC_AXIS_ENABLE_ADDR, XSDFEC_AXIS_ENABLE_MASK),
         (XSDFEC_CODE_WR_PROTECT_ADDR, XSDFEC_WRITE_PROTECT_ENABLE),
         (XSDFEC_AXI_WR_PROTECT_ADDR, XSDFEC_WRITE_PROTECT_ENABLE)]) := by
  refine ⟨fun h1 => ?_, fun h1 h2 => ?_, fun h1 h2 h3 => ?_, fun h1 h2 h3 h4 => ?_⟩
  · unfold xsdfec_start
    rw [if_pos h1]
  · unfold xsdfec_start xsdfec_regread
    rw [if_neg h1]
    simp only []
    rw [if_pos h2]
    exact ⟨rfl, rfl, rfl, rfl⟩
  · unfold xsdfec_start xsdfec_regread
    rw [if_neg h1]
    simp only []
    rw [if_neg (by simpa using h2), if_pos h3]
    exact ⟨rfl, rfl, rfl, rfl⟩
  · unfold xsdfec_start xsdfec_regread
    rw [if_neg h1]
    simp only []
    rw [if_neg (by simpa using h2), if_neg h3]
    rw [xsdfec_regwrite_notProtected _ _ _ (by exact h4)]
    refine ⟨rfl, rfl, ?_, ?_⟩
    · exact (xsdfec_wr_protect_true_parts _ (by exact h4)).2.1
    · rw [(xsdfec_wr_protect_true_parts _ (by exact h4)).1]
      simp [u32, XSDFEC_AXIS_ENABLE_MASK]

/-- Device ready to start: LDPC family, matching hardware code register,
valid order, write protection off. -/
def devStart : XsdfecDev :=
  { devZero with regs := fun a => if a = XSDFEC_FEC_CODE_ADDR then 1 else 0 }

/-- devStart with the decode order still unset. -/
def devNoOrder : XsdfecDev :=
  { devStart with config := { devStart.config with order := XSDFEC_INVALID_ORDER } }

/-- Witness for c6_amended: all four cases at concrete devices. -/
theorem c6_amended_witness :
    (xsdfec_start devInvalid = (-22, devErr devInvalid LogEvent.setCodeBeforeStart)) ∧
    ((xsdfec_start devZero).1 = -22 ∧ (xsdfec_start devZero).2.state = devZero.state ∧
     (xsdfec_start devZero).2.wrTrace = devZero.wrTrace ∧
     (xsdfec_start devZero).2.regs = devZero.regs) ∧
    ((xsdfec_start devNoOrder).1 = -22 ∧ (xsdfec_start devNoOrder).2.state = devNoOrder.state ∧
     (xsdfec_start devNoOrder).2.wrTrace = devNoOrder.wrTrace ∧
     (xsdfec_start devNoOrder).2.regs = devNoOrder.regs) ∧
    ((xsdfec_start devStart).1 = 0 ∧ (xsdfec_start devStart).2.state = XsdfecState.started ∧
     (xsdfec_start devStart).2.wr_protect = true ∧
     (xsdfec_start devStart).2.wrTrace = devStart.wrTrace ++
       [(XSDFEC_AXIS_ENABLE_ADDR, XSDFEC_AXIS_ENABLE_MASK),
        (XSDFEC_CODE_WR_PROTECT_ADDR, XSDFEC_WRITE_PROTECT_ENABLE),
        (XSDFEC_AXI_WR_PROTECT_ADDR, XSDFEC_WRITE_PROTECT_ENABLE)]) :=
  ⟨(c6_amended devInvalid).1 rfl,
   (c6_amended devZero).2.1 (by decide) (by decide),
   (c6_amended devNoOrder).2.2.1 (by decide) (by decide) rfl,
   (c6_amended devStart).2.2.2 (by decide) (by decide) (by decide) rfl⟩

/-- C7: while the device state is NEEDS_RESET, every command other than
set-default-config, get-status, get-stats and clear-stats returns -EPERM
with the device untouched (no register or trace change, only a log
entry); and those four commands are never blocked by the NEEDS_RESET
gate: whatever the state and inputs, none of them ever returns -EPERM. -/
theorem c7_needs_reset_gate (d : XsdfecDev) (cmd : XsdfecIoctlCmd) (inp : IoctlInput) :
    (d.state = XsdfecState.needsReset →
      cmd ≠ XsdfecIoctlCmd.setDefaultConfig → cmd ≠ XsdfecIoctlCmd.getStatus →
      cmd ≠ XsdfecIoctlCmd.getStats → cmd ≠ XsdfecIoctlCmd.clearStats →
      xsdfec_dev_ioctl d cmd inp = (-1, devErr d LogEvent.needsResetGate)) ∧
    ((cmd = XsdfecIoctlCmd.setDefaultConfig ∨ cmd = XsdfecIoctlCmd.getStatus ∨
      cmd = XsdfecIoctlCmd.getStats ∨ cmd = XsdfecIoctlCmd.clearStats) →
      (xsdfec_dev_ioctl d cmd inp).1 ≠ -1) := by
  constructor
  · intro hs h1 h2 h3 h4
    unfold xsdfec_dev_ioctl
    rw [if_pos ⟨hs, h1, h2, h3, h4⟩]
  · intro hc
    rcases hc with h | h | h | h <;> subst h <;>
      unfold xsdfec_dev_ioctl <;>
      rw [if_neg (by simp)] <;>
      simp only [xsdfec_set_default_config, xsdfec_get_status, xsdfec_get_stats,
        xsdfec_clear_stats, xsdfec_regread] <;>
      split_ifs <;> simp

/-- A concrete ioctl input record. -/
def inpDefault : IoctlInput :=
  { ldpc := lC1, turboScale := 0, turboAlg := 0, order := 1, bypass := 0,
    enable_isr := true, enable_ecc_isr := true, copyFromBytes := 0,
    copyToUserOk := true, argPresent := true, accessOk := true }

/-- devZero in the NEEDS_RESET state. -/
def devNR : XsdfecDev := { devZero with state := XsdfecState.needsReset }

/-- Witness for c7_needs_reset_gate: start is blocked in NEEDS_RESET,
clear-stats is not. -/
theorem c7_witness :
    xsdfec_dev_ioctl devNR XsdfecIoctlCmd.startDev inpDefault =
      (-1, devErr devNR LogEvent.needsResetGate) ∧
    (xsdfec_dev_ioctl devNR XsdfecIoctlCmd.clearStats inpDefault).1 ≠ -1 :=
  ⟨(c7_needs_reset_gate devNR XsdfecIoctlCmd.startDev inpDefault).1 rfl
     (by decide) (by decide) (by decide) (by decide),
   (c7_needs_reset_gate devNR XsdfecIoctlCmd.clearStats inpDefault).2
     (Or.inr (Or.inr (Or.inr rfl)))⟩


theorem xsdfec_collect_ldpc_reg0_ok (d : XsdfecDev) (p : LdpcParams) (cid : Nat)
    (h : ¬ (u32 (XSDFEC_LDPC_CODE_REG0_ADDR_BASE + u32 (cid * XSDFEC_LDPC_REG_JUMP)) >
        XSDFEC_LDPC_CODE_REG0_ADDR_HIGH)) :
    xsdfec_collect_ldpc_reg0 d cid p =
      (0,
       { p with
         n := (d.regs (u32 (XSDFEC_LDPC_CODE_REG0_ADDR_BASE + u32 (cid * XSDFEC_LDPC_REG_JUMP))) >>>
            XSDFEC_REG0_N_LSB) &&& XSDFEC_REG0_N_MASK,
         k := (d.regs (u32 (XSDFEC_LDPC_CODE_REG0_ADDR_BASE + u32 (cid * XSDFEC_LDPC_REG_JUMP))) >>>
            XSDFEC_REG0_K_LSB) &&& XSDFEC_REG0_K_MASK },
       { d with rdTrace := d.rdTrace ++
          [u32 (XSDFEC_LDPC_CODE_REG0_ADDR_BASE + u32 (cid * XSDFEC_LDPC_REG_JUMP))] }) := by
  unfold xsdfec_collect_ldpc_reg0 xsdfec_regread
  rw [if_neg h]

theorem xsdfec_collect_ldpc_reg1_ok (d : XsdfecDev) (p : LdpcParams) (cid : Nat)
    (h : ¬ (u32 (XSDFEC_LDPC_CODE_REG1_ADDR_BASE + u32 (cid * XSDFEC_LDPC_REG_JUMP)) >
        XSDFEC_LDPC_CODE_REG1_ADDR_HIGH)) :
    xsdfec_collect_ldpc_reg1 d cid p =
      (0,
       { p with
         psize := d.regs (u32 (XSDFEC_LDPC_CODE_REG1_ADDR_BASE + u32 (cid * XSDFEC_LDPC_REG_JUMP))) &&&
           XSDFEC_REG1_PSIZE_MASK,
         no_packing := (d.regs (u32 (XSDFEC_LDPC_CODE_REG1_ADDR_BASE + u32 (cid * XSDFEC_LDPC_REG_JUMP))) >>>
            XSDFEC_REG1_NO_PACKING_LSB) &&& XSDFEC_REG1_NO_PACKING_MASK,
         nm := (d.regs (u32 (XSDFEC_LDPC_CODE_REG1_ADDR_BASE + u32 (cid * XSDFEC_LDPC_REG_JUMP))) >>>
            XSDFEC_REG1_NM_LSB) &&& XSDFEC_REG1_NM_MASK },
       { d with rdTrace := d.rdTrace ++
          [u32 (XSDFEC_LDPC_CODE_REG1_ADDR_BASE + u32 (cid * XSDFEC_LDPC_REG_JUMP))] }) := by
  unfold xsdfec_collect_ldpc_reg1 xsdfec_regread
  rw [if_neg h]

theorem xsdfec_collect_ldpc_reg2_ok (d : XsdfecDev) (p : LdpcParams) (cid : Nat)
    (h : ¬ (u32 (XSDFEC_LDPC_CODE_REG2_ADDR_BASE + u32 (cid * XSDFEC_LDPC_REG_JUMP)) >
        XSDFEC_LDPC_CODE_REG2_ADDR_HIGH)) :
    xsdfec_collect_ldpc_reg2 d cid p =
      (0,
       { p with
         nlayers := (d.regs (u32 (XSDFEC_LDPC_CODE_REG2_ADDR_BASE + u32 (cid * XSDFEC_LDPC_REG_JUMP))) >>>
            XSDFEC_REG2_NLAYERS_LSB) &&& XSDFEC_REG2_NLAYERS_MASK,
         nmqc := (d.regs (u32 (XSDFEC_LDPC_CODE_REG2_ADDR_BASE + u32 (cid * XSDFEC_LDPC_REG_JUMP))) >>>
            XSDFEC_REG2_NMQC_LSB) &&& XSDFEC_REG2_NNMQC_MASK,
         norm_type := (d.regs (u32 (XSDFEC_LDPC_CODE_REG2_ADDR_BASE + u32 (cid * XSDFEC_LDPC_REG_JUMP))) >>>
            XSDFEC_REG2_NORM_TYPE_LSB) &&& XSDFEC_REG2_NORM_TYPE_MASK,
         special_qc := (d.regs (u32 (XSDFEC_LDPC_CODE_REG2_ADDR_BASE + u32 (cid * XSDFEC_LDPC_REG_JUMP))) >>>
            XSDFEC_REG2_SPEICAL_QC_LSB) &&& XSDFEC_REG2_SPECIAL_QC_MASK,
         no_final_parity := (d.regs (u32 (XSDFEC_LDPC_CODE_REG2_ADDR_BASE + u32 (cid * XSDFEC_LDPC_REG_JUMP))) >>>
            XSDFEC_REG2_NO_FINAL_PARITY_LSB) &&& XSDFEC_REG2_NO_FINAL_PARITY_MASK,
         max_schedule := (d.regs (u32 (XSDFEC_LDPC_CODE_REG2_ADDR_BASE + u32 (cid * XSDFEC_LDPC_REG_JUMP))) >>>
            XSDFEC_REG2_MAX_SCHEDULE_LSB) &&& XSDFEC_REG2_MAX_SCHEDULE_MASK },
       { d with rdTrace := d.rdTrace ++
          [u32 (XSDFEC_LDPC_CODE_REG2_ADDR_BASE + u32 (cid * XSDFEC_LDPC_REG_JUMP))] }) := by
  unfold xsdfec_collect_ldpc_reg2 xsdfec_regread
  rw [if_neg h]

theorem xsdfec_collect_ldpc_reg3_ok (d : XsdfecDev) (p : LdpcParams) (cid : Nat)
    (h : ¬ (u32 (XSDFEC_LDPC_CODE_REG3_ADDR_BASE + u32 (cid * XSDFEC_LDPC_REG_JUMP)) >
        XSDFEC_LDPC_CODE_REG3_ADDR_HIGH)) :
    xsdfec_collect_ldpc_reg3 d cid p =
      (0,
       { p with
         qc_off := (u32 (XSDFEC_LDPC_CODE_REG3_ADDR_BASE + u32 (cid * XSDFEC_LDPC_REG_JUMP)) >>>
            XSDFEC_REG3_QC_OFF_LSB) &&& 0xFF,
         la_off := (u32 (XSDFEC_LDPC_CODE_REG3_ADDR_BASE + u32 (cid * XSDFEC_LDPC_REG_JUMP)) >>>
            XSDFEC_REG3_LA_OFF_LSB) &&& 0xFF,
         sc_off := u32 (XSDFEC_LDPC_CODE_REG3_ADDR_BASE + u32 (cid * XSDFEC_LDPC_REG_JUMP)) &&& 0xFF },
       { d with rdTrace := d.rdTrace ++
          [u32 (XSDFEC_LDPC_CODE_REG3_ADDR_BASE + u32 (cid * XSDFEC_LDPC_REG_JUMP))] }) := by
  unfold xsdfec_collect_ldpc_reg3 xsdfec_regread
  rw [if_neg h]

theorem xsdfec_collect_sc_table_ok (d : XsdfecDev) (off : Nat) (t : Nat → Nat) (len : Nat)
    (h : ¬ (u32 (XSDFEC_REG_WIDTH_JUMP * u32 (off + len)) > XSDFEC_SC_TABLE_DEPTH)) :
    xsdfec_collect_sc_table d off t len =
      (0, (collectTableLoop d XSDFEC_LDPC_SC_TABLE_ADDR_BASE off t len).1,
          (collectTableLoop d XSDFEC_LDPC_SC_TABLE_ADDR_BASE off t len).2) := by
  unfold xsdfec_collect_sc_table
  rw [if_neg h]

theorem xsdfec_collect_la_table_ok (d : XsdfecDev) (off : Nat) (t : Nat → Nat) (len : Nat)
    (h : ¬ (u32 (XSDFEC_REG_WIDTH_JUMP * u32 (off + len)) > XSDFEC_LA_TABLE_DEPTH)) :
    xsdfec_collect_la_table d off t len =
      (0, (collectTableLoop d XSDFEC_LDPC_LA_TABLE_ADDR_BASE off t len).1,
          (collectTableLoop d XSDFEC_LDPC_LA_TABLE_ADDR_BASE off t len).2) := by
  unfold xsdfec_collect_la_table
  rw [if_neg h]

theorem xsdfec_collect_qc_table_ok (d : XsdfecDev) (off : Nat) (t : Nat → Nat) (len : Nat)
    (h : ¬ (u32 (XSDFEC_REG_WIDTH_JUMP * u32 (off + len)) > XSDFEC_QC_TABLE_DEPTH)) :
    xsdfec_collect_qc_table d off t len =
      (0, (collectTableLoop d XSDFEC_LDPC_QC_TABLE_ADDR_BASE off t len).1,
          (collectTableLoop d XSDFEC_LDPC_QC_TABLE_ADDR_BASE off t len).2) := by
  unfold xsdfec_collect_qc_table
  rw [if_neg h]

theorem collectTableLoop_regs (d : XsdfecDev) (b o : Nat) (t : Nat → Nat) (len : Nat) :
    ((collectTableLoop d b o t len).2).regs = d.regs := by
  induction len with
  | zero => rfl
  | succ m ih =>
      unfold collectTableLoop xsdfec_regread
      simp only []
      exact ih

theorem collectTableLoop_rdTrace_len (d : XsdfecDev) (b o : Nat) (t : Nat → Nat) (len : Nat) :
    ((collectTableLoop d b o t len).2).rdTrace.length = d.rdTrace.length + len := by
  induction len with
  | zero => rfl
  | succ m ih =>
      unfold collectTableLoop xsdfec_regread
      simp only [List.length_append, List.length_cons, List.length_nil, ih]
      omega

theorem xsdfec_collect_ldpc_reg0_ex (d : XsdfecDev) (p : LdpcParams) (cid : Nat)
    (h : ¬ (u32 (XSDFEC_LDPC_CODE_REG0_ADDR_BASE + u32 (cid * XSDFEC_LDPC_REG_JUMP)) >
        XSDFEC_LDPC_CODE_REG0_ADDR_HIGH)) :
    ∃ pr dr, xsdfec_collect_ldpc_reg0 d cid p = (0, pr, dr) ∧
      pr.code_id = p.code_id ∧ pr.nqc = p.nqc ∧ dr.regs = d.regs :=
  ⟨_, _, xsdfec_collect_ldpc_reg0_ok d p cid h, rfl, rfl, rfl⟩

theorem xsdfec_collect_ldpc_reg1_ex (d : XsdfecDev) (p : LdpcParams) (cid : Nat)
    (h : ¬ (u32 (XSDFEC_LDPC_CODE_REG1_ADDR_BASE + u32 (cid * XSDFEC_LDPC_REG_JUMP)) >
        XSDFEC_LDPC_CODE_REG1_ADDR_HIGH)) :
    ∃ pr dr, xsdfec_collect_ldpc_reg1 d cid p = (0, pr, dr) ∧
      pr.code_id = p.code_id ∧ pr.nqc = p.nqc ∧ dr.regs = d.regs :=
  ⟨_, _, xsdfec_collect_ldpc_reg1_ok d p cid h, rfl, rfl, rfl⟩

theorem xsdfec_collect_ldpc_reg2_ex (d : XsdfecDev) (p : LdpcParams) (cid : Nat)
    (h : ¬ (u32 (XSDFEC_LDPC_CODE_REG2_ADDR_BASE + u32 (cid * XSDFEC_LDPC_REG_JUMP)) >
        XSDFEC_LDPC_CODE_REG2_ADDR_HIGH)) :
    ∃ pr dr, xsdfec_collect_ldpc_reg2 d cid p = (0, pr, dr) ∧
      pr.code_id = p.code_id ∧ pr.nqc = p.nqc ∧
      pr.nlayers = (d.regs (u32 (XSDFEC_LDPC_CODE_REG2_ADDR_BASE + u32 (cid * XSDFEC_LDPC_REG_JUMP))) >>>
        XSDFEC_REG2_NLAYERS_LSB) &&& XSDFEC_REG2_NLAYERS_MASK ∧
      dr.regs = d.regs :=
  ⟨_, _, xsdfec_collect_ldpc_reg2_ok d p cid h, rfl, rfl, rfl, rfl⟩

theorem xsdfec_collect_ldpc_reg3_ex (d : XsdfecDev) (p : LdpcParams) (cid : Nat)
    (h : ¬ (u32 (XSDFEC_LDPC_CODE_REG3_ADDR_BASE + u32 (cid * XSDFEC_LDPC_REG_JUMP)) >
        XSDFEC_LDPC_CODE_REG3_ADDR_HIGH)) :
    ∃ pr dr, xsdfec_collect_ldpc_reg3 d cid p = (0, pr, dr) ∧
      pr.sc_off = u32 (XSDFEC_LDPC_CODE_REG3_ADDR_BASE + u32 (cid * XSDFEC_LDPC_REG_JUMP)) &&& 0xFF ∧
      pr.la_off = (u32 (XSDFEC_LDPC_CODE_REG3_ADDR_BASE + u32 (cid * XSDFEC_LDPC_REG_JUMP)) >>>
        XSDFEC_REG3_LA_OFF_LSB) &&& 0xFF ∧
      pr.qc_off = (u32 (XSDFEC_LDPC_CODE_REG3_ADDR_BASE + u32 (cid * XSDFEC_LDPC_REG_JUMP)) >>>
        XSDFEC_REG3_QC_OFF_LSB) &&& 0xFF ∧
      pr.nlayers = p.nlayers ∧ pr.nqc = p.nqc ∧ dr.regs = d.regs :=
  ⟨_, _, xsdfec_collect_ldpc_reg3_ok d p cid h, rfl, rfl, rfl, rfl, rfl, rfl⟩

theorem xsdfec_collect_sc_table_ex (d : XsdfecDev) (off : Nat) (t : Nat → Nat) (len : Nat)
    (h : ¬ (u32 (XSDFEC_REG_WIDTH_JUMP * u32 (off + len)) > XSDFEC_SC_TABLE_DEPTH)) :
    ∃ tr dr, xsdfec_collect_sc_table d off t len = (0, tr, dr) :=
  ⟨_, _, xsdfec_collect_sc_table_ok d off t len h⟩

theorem xsdfec_collect_la_table_ex (d : XsdfecDev) (off : Nat) (t : Nat → Nat) (len : Nat)
    (h : ¬ (u32 (XSDFEC_REG_WIDTH_JUMP * u32 (off + len)) > XSDFEC_LA_TABLE_DEPTH)) :
    ∃ tr dr, xsdfec_collect_la_table d off t len = (0, tr, dr) :=
  ⟨_, _, xsdfec_collect_la_table_ok d off t len h⟩

theorem xsdfec_collect_qc_table_ex (d : XsdfecDev) (off : Nat) (t : Nat → Nat) (len : Nat)
    (h : ¬ (u32 (XSDFEC_REG_WIDTH_JUMP * u32 (off + len)) > XSDFEC_QC_TABLE_DEPTH)) :
    ∃ tr dr, xsdfec_collect_qc_table d off t len = (0, tr, dr) :=
  ⟨_, _, xsdfec_collect_qc_table_ok d off t len h⟩

/-- C10: when the configuration is not Turbo, the initial copy succeeds
and every register-address and table-bound check passes, the get-code
operation returns 0 even when the final copy to the caller fails: the
-EFAULT recorded for the failed copy is discarded (the source returns the
literal 0 after the copy), so the result is identical to that of a
successful copy and the caller cannot distinguish the two. -/
theorem c10_copy_failure_discarded (d : XsdfecDev) (p : LdpcParams)
    (hcode : d.config.code ≠ XsdfecCode.turboCode)
    (h0 : ¬ (u32 (XSDFEC_LDPC_CODE_REG0_ADDR_BASE + u32 (p.code_id * XSDFEC_LDPC_REG_JUMP)) >
          XSDFEC_LDPC_CODE_REG0_ADDR_HIGH))
    (h1 : ¬ (u32 (XSDFEC_LDPC_CODE_REG1_ADDR_BASE + u32 (p.code_id * XSDFEC_LDPC_REG_JUMP)) >
          XSDFEC_LDPC_CODE_REG1_ADDR_HIGH))
    (h2 : ¬ (u32 (XSDFEC_LDPC_CODE_REG2_ADDR_BASE + u32 (p.code_id * XSDFEC_LDPC_REG_JUMP)) >
          XSDFEC_LDPC_CODE_REG2_ADDR_HIGH))
    (h3 : ¬ (u32 (XSDFEC_LDPC_CODE_REG3_ADDR_BASE + u32 (p.code_id * XSDFEC_LDPC_REG_JUMP)) >
          XSDFEC_LDPC_CODE_REG3_ADDR_HIGH))
    (hsc : ¬ (u32 (XSDFEC_REG_WIDTH_JUMP * u32 (
          (u32 (XSDFEC_LDPC_CODE_REG3_ADDR_BASE + u32 (p.code_id * XSDFEC_LDPC_REG_JUMP)) &&& 0xFF) +
          ((d.regs (u32 (XSDFEC_LDPC_CODE_REG2_ADDR_BASE + u32 (p.code_id * XSDFEC_LDPC_REG_JUMP))) >>>
            XSDFEC_REG2_NLAYERS_LSB) &&& XSDFEC_REG2_NLAYERS_MASK))) > XSDFEC_SC_TABLE_DEPTH))
    (hla : ¬ (u32 (XSDFEC_REG_WIDTH_JUMP * u32 (
          4 * ((u32 (XSDFEC_LDPC_CODE_REG3_ADDR_BASE + u32 (p.code_id * XSDFEC_LDPC_REG_JUMP)) >>>
              XSDFEC_REG3_LA_OFF_LSB) &&& 0xFF) +
          ((d.regs (u32 (XSDFEC_LDPC_CODE_REG2_ADDR_BASE + u32 (p.code_id * XSDFEC_LDPC_REG_JUMP))) >>>
            XSDFEC_REG2_NLAYERS_LSB) &&& XSDFEC_REG2_NLAYERS_MASK))) > XSDFEC_LA_TABLE_DEPTH))
    (hqc : ¬ (u32 (XSDFEC_REG_WIDTH_JUMP * u32 (
          4 * ((u32 (XSDFEC_LDPC_CODE_REG3_ADDR_BASE + u32 (p.code_id * XSDFEC_LDPC_REG_JUMP)) >>>
              XSDFEC_REG3_QC_OFF_LSB) &&& 0xFF) + p.nqc)) > XSDFEC_QC_TABLE_DEPTH)) :
    (xsdfec_get_ldpc_code_params d p 0 false).1 = 0 ∧
    (xsdfec_get_ldpc_code_params d p 0 false).1 = (xsdfec_get_ldpc_code_params d p 0 true).1 := by
  have hmain : ∀ b : Bool, (xsdfec_get_ldpc_code_params d p 0 b).1 = 0 := by
    intro b
    unfold xsdfec_get_ldpc_code_params
    rw [if_neg hcode, if_neg (by decide)]
    obtain ⟨p1, d1, he1, hc1, hq1, hr1⟩ := xsdfec_collect_ldpc_reg0_ex d p p.code_id h0
    rw [he1]
    dsimp only
    rw [if_neg (by decide)]
    obtain ⟨p2, d2, he2, hc2, hq2, hr2⟩ :=
      xsdfec_collect_ldpc_reg1_ex d1 p1 p1.code_id (by rw [hc1]; exact h1)
    rw [he2]
    dsimp only
    rw [if_neg (by decide)]
    obtain ⟨p3, d3, he3, hc3, hq3, hnl3, hr3⟩ :=
      xsdfec_collect_ldpc_reg2_ex d2 p2 p2.code_id (by rw [hc2, hc1]; exact h2)
    rw [he3]
    dsimp only
    rw [if_neg (by decide)]
    obtain ⟨p4, d4, he4, hsc4, hla4, hqc4, hnl4, hq4, hr4⟩ :=
      xsdfec_collect_ldpc_reg3_ex d3 p3 p3.code_id (by rw [hc3, hc2, hc1]; exact h3)
    rw [he4]
    dsimp only
    rw [if_neg (by decide)]
    obtain ⟨t5, d5, he5⟩ := xsdfec_collect_sc_table_ex d4 p4.sc_off p4.sc_table p4.nlayers
      (by rw [hsc4, hnl4, hnl3, hr2, hr1, hc3, hc2, hc1]; exact hsc)
    rw [he5]
    dsimp only
    rw [if_neg (by decide)]
    obtain ⟨t6, d6, he6⟩ := xsdfec_collect_la_table_ex d5 (4 * p4.la_off) p4.la_table p4.nlayers
      (by rw [hla4, hnl4, hnl3, hr2, hr1, hc3, hc2, hc1]; exact hla)
    rw [he6]
    dsimp only
    rw [if_neg (by decide)]
    obtain ⟨t7, d7, he7⟩ := xsdfec_collect_qc_table_ex d6 (4 * p4.qc_off) p4.qc_table p4.nqc
      (by rw [hqc4, hq4, hq3, hq2, hq1, hc3, hc2, hc1]; exact hqc)
    rw [he7]
    dsimp only
    rw [if_neg (by decide)]
    cases b <;> rfl
  exact ⟨hmain false, (hmain false).trans (hmain true).symm⟩

/-- Witness for c10_copy_failure_discarded at a zeroed device. -/
theorem c10_witness :
    (xsdfec_get_ldpc_code_params devZero lC1 0 false).1 = 0 ∧
    (xsdfec_get_ldpc_code_params devZero lC1 0 false).1 =
      (xsdfec_get_ldpc_code_params devZero lC1 0 true).1 :=
  c10_copy_failure_discarded devZero lC1 (by decide) (by decide) (by decide) (by decide)
    (by decide) (by decide) (by decide) (by decide)


theorem xsdfec_reg0_write_wr_protect (d : XsdfecDev) (n k o : Nat) :
    ((xsdfec_reg0_write d n k o).2).wr_protect = d.wr_protect := by
  simp only [xsdfec_reg0_write, apply_ite Prod.snd, apply_ite XsdfecDev.wr_protect,
    devErr_wr_protect, xsdfec_regwrite_wr_protect, ite_self]

theorem xsdfec_reg1_write_wr_protect (d : XsdfecDev) (a b c o : Nat) :
    ((xsdfec_reg1_write d a b c o).2).wr_protect = d.wr_protect := by
  simp only [xsdfec_reg1_write, apply_ite Prod.snd, apply_ite XsdfecDev.wr_protect,
    devErr_wr_protect, xsdfec_regwrite_wr_protect, ite_self]

theorem xsdfec_reg2_write_wr_protect (d : XsdfecDev) (a b c e f g o : Nat) :
    ((xsdfec_reg2_write d a b c e f g o).2).wr_protect = d.wr_protect := by
  simp only [xsdfec_reg2_write, apply_ite Prod.snd, apply_ite XsdfecDev.wr_protect,
    devErr_wr_protect, xsdfec_regwrite_wr_protect, ite_self]

theorem xsdfec_reg3_write_wr_protect (d : XsdfecDev) (a b c o : Nat) :
    ((xsdfec_reg3_write d a b c o).2).wr_protect = d.wr_protect := by
  simp only [xsdfec_reg3_write, apply_ite Prod.snd, apply_ite XsdfecDev.wr_protect,
    devErr_wr_protect, xsdfec_regwrite_wr_protect, ite_self]

theorem xsdfec_reg1_write_parts (d : XsdfecDev) (psize no_packing nm o : Nat)
    (ho : o ≤ 31) (hwp : d.wr_protect = false) :
    (xsdfec_reg1_write d psize no_packing nm o).1 = 0 ∧
    ((xsdfec_reg1_write d psize no_packing nm o).2).wrTrace.map Prod.fst =
      d.wrTrace.map Prod.fst ++
      [XSDFEC_LDPC_CODE_REG1_ADDR_BASE + o * XSDFEC_LDPC_REG_JUMP] := by
  have hj : u32 (o * XSDFEC_LDPC_REG_JUMP) = o * XSDFEC_LDPC_REG_JUMP := by
    unfold u32 XSDFEC_LDPC_REG_JUMP
    exact Nat.mod_eq_of_lt (by omega)
  have haddr : u32 (XSDFEC_LDPC_CODE_REG1_ADDR_BASE + u32 (o * XSDFEC_LDPC_REG_JUMP)) =
      XSDFEC_LDPC_CODE_REG1_ADDR_BASE + o * XSDFEC_LDPC_REG_JUMP := by
    rw [hj]
    unfold u32 XSDFEC_LDPC_CODE_REG1_ADDR_BASE XSDFEC_LDPC_REG_JUMP
    exact Nat.mod_eq_of_lt (by omega)
  have hguard : ¬ (XSDFEC_LDPC_CODE_REG1_ADDR_BASE + o * XSDFEC_LDPC_REG_JUMP >
      XSDFEC_LDPC_CODE_REG1_ADDR_HIGH) := by
    unfold XSDFEC_LDPC_CODE_REG1_ADDR_BASE XSDFEC_LDPC_REG_JUMP XSDFEC_LDPC_CODE_REG1_ADDR_HIGH
    omega
  unfold xsdfec_reg1_write
  rw [haddr, if_neg hguard]
  refine ⟨rfl, ?_⟩
  simp only [xsdfec_regwrite, ite_devErr_wr_protect, hwp, Bool.false_eq_true, if_false,
    ite_devErr_wrTrace, List.map_append]
  rfl

theorem xsdfec_reg3_write_parts (d : XsdfecDev) (sc_off la_off qc_off o : Nat)
    (ho : o ≤ 31) (hwp : d.wr_protect = false) :
    (xsdfec_reg3_write d sc_off la_off qc_off o).1 = 0 ∧
    ((xsdfec_reg3_write d sc_off la_off qc_off o).2).wrTrace.map Prod.fst =
      d.wrTrace.map Prod.fst ++
      [XSDFEC_LDPC_CODE_REG3_ADDR_BASE + o * XSDFEC_LDPC_REG_JUMP] := by
  have hj : u32 (o * XSDFEC_LDPC_REG_JUMP) = o * XSDFEC_LDPC_REG_JUMP := by
    unfold u32 XSDFEC_LDPC_REG_JUMP
    exact Nat.mod_eq_of_lt (by omega)
  have haddr : u32 (XSDFEC_LDPC_CODE_REG3_ADDR_BASE + u32 (o * XSDFEC_LDPC_REG_JUMP)) =
      XSDFEC_LDPC_CODE_REG3_ADDR_BASE + o * XSDFEC_LDPC_REG_JUMP := by
    rw [hj]
    unfold u32 XSDFEC_LDPC_CODE_REG3_ADDR_BASE XSDFEC_LDPC_REG_JUMP
    exact Nat.mod_eq_of_lt (by omega)
  have hguard : ¬ (XSDFEC_LDPC_CODE_REG3_ADDR_BASE + o * XSDFEC_LDPC_REG_JUMP >
      XSDFEC_LDPC_CODE_REG3_ADDR_HIGH) := by
    unfold XSDFEC_LDPC_CODE_REG3_ADDR_BASE XSDFEC_LDPC_REG_JUMP XSDFEC_LDPC_CODE_REG3_ADDR_HIGH
    omega
  unfold xsdfec_reg3_write
  rw [haddr, if_neg hguard]
  refine ⟨rfl, ?_⟩
  rw [xsdfec_regwrite_notProtected _ _ _ hwp]
  simp only [List.map_append]
  rfl

theorem xsdfec_reg0_write_ex (d : XsdfecDev) (n k o : Nat)
    (ho : o ≤ 31) (hwp : d.wr_protect = false) :
    ∃ dr, xsdfec_reg0_write d n k o = (0, dr) ∧
      dr.wrTrace.map Prod.fst = d.wrTrace.map Prod.fst ++
        [XSDFEC_LDPC_CODE_REG0_ADDR_BASE + o * XSDFEC_LDPC_REG_JUMP] ∧
      dr.wr_protect = false := by
  obtain ⟨h1, _, htr⟩ := xsdfec_reg0_write_parts d n k o ho hwp
  refine ⟨(xsdfec_reg0_write d n k o).2, ?_, ?_, ?_⟩
  · rw [← h1]
  · rw [htr]
    simp only [List.map_append]
    rfl
  · rw [xsdfec_reg0_write_wr_protect]
    exact hwp

theorem xsdfec_reg1_write_ex (d : XsdfecDev) (psize no_packing nm o : Nat)
    (ho : o ≤ 31) (hwp : d.wr_protect = false) :
    ∃ dr, xsdfec_reg1_write d psize no_packing nm o = (0, dr) ∧
      dr.wrTrace.map Prod.fst = d.wrTrace.map Prod.fst ++
        [XSDFEC_LDPC_CODE_REG1_ADDR_BASE + o * XSDFEC_LDPC_REG_JUMP] ∧
      dr.wr_protect = false := by
  obtain ⟨h1, htr⟩ := xsdfec_reg1_write_parts d psize no_packing nm o ho hwp
  refine ⟨(xsdfec_reg1_write d psize no_packing nm o).2, ?_, htr, ?_⟩
  · rw [← h1]
  · rw [xsdfec_reg1_write_wr_protect]
    exact hwp

theorem xsdfec_reg2_write_ex (d : XsdfecDev) (a b c e f g o : Nat)
    (ho : o ≤ 31) (hwp : d.wr_protect = false) :
    ∃ dr, xsdfec_reg2_write d a b c e f g o = (0, dr) ∧
      dr.wrTrace.map Prod.fst = d.wrTrace.map Prod.fst ++
        [XSDFEC_LDPC_CODE_REG2_ADDR_BASE + o * XSDFEC_LDPC_REG_JUMP] ∧
      dr.wr_protect = false := by
  obtain ⟨h1, _, htr⟩ := xsdfec_reg2_write_parts d a b c e f g o ho hwp
  refine ⟨(xsdfec_reg2_write d a b c e f g o).2, ?_, ?_, ?_⟩
  · rw [← h1]
  · rw [htr]
    simp only [List.map_append]
    rfl
  · rw [xsdfec_reg2_write_wr_protect]
    exact hwp

theorem xsdfec_reg3_write_ex (d : XsdfecDev) (sc_off la_off qc_off o : Nat)
    (ho : o ≤ 31) (hwp : d.wr_protect = false) :
    ∃ dr, xsdfec_reg3_write d sc_off la_off qc_off o = (0, dr) ∧
      dr.wrTrace.map Prod.fst = d.wrTrace.map Prod.fst ++
        [XSDFEC_LDPC_CODE_REG3_ADDR_BASE + o * XSDFEC_LDPC_REG_JUMP] ∧
      dr.wr_protect = false := by
  obtain ⟨h1, htr⟩ := xsdfec_reg3_write_parts d sc_off la_off qc_off o ho hwp
  refine ⟨(xsdfec_reg3_write d sc_off la_off qc_off o).2, ?_, htr, ?_⟩
  · rw [← h1]
  · rw [xsdfec_reg3_write_wr_protect]
    exact hwp

theorem tableAddrs_collapse (base off len : Nat) (hbase : base ≤ 0x20000)
    (hb : off + len ≤ 0x2000) :
    (List.range len).map
        (fun i => u32 (base + u32 ((off + i) * XSDFEC_REG_WIDTH_JUMP))) =
      (List.range len).map (fun i => base + (off + i) * XSDFEC_REG_WIDTH_JUMP) := by
  apply List.map_congr_left
  intro i hi
  have hilt : i < len := List.mem_range.mp hi
  unfold u32 XSDFEC_REG_WIDTH_JUMP
  rw [Nat.mod_eq_of_lt (by omega), Nat.mod_eq_of_lt (by omega)]

theorem xsdfec_sc_table_write_ex (d : XsdfecDev) (off : Nat) (t : Nat → Nat) (len : Nat)
    (hwp : d.wr_protect = false) (hb : off + len ≤ 255) :
    ∃ dr, xsdfec_sc_table_write d off t len = (Int.ofNat len, dr) ∧
      dr.wrTrace.map Prod.fst = d.wrTrace.map Prod.fst ++
        (List.range len).map
          (fun i => XSDFEC_LDPC_SC_TABLE_ADDR_BASE + (off + i) * XSDFEC_REG_WIDTH_JUMP) ∧
      dr.wr_protect = false := by
  have hguard : ¬ (u32 (XSDFEC_REG_WIDTH_JUMP * u32 (off + len)) > XSDFEC_SC_TABLE_DEPTH) := by
    unfold u32 XSDFEC_REG_WIDTH_JUMP XSDFEC_SC_TABLE_DEPTH
    omega
  refine ⟨writeTableLoop d XSDFEC_LDPC_SC_TABLE_ADDR_BASE off t len, ?_, ?_, ?_⟩
  · unfold xsdfec_sc_table_write
    rw [if_neg hguard]
  · rw [writeTableLoop_wrTrace d _ off t len hwp]
    rw [List.map_append]
    rw [show (List.map Prod.fst ((List.range len).map
        (fun i => (u32 (XSDFEC_LDPC_SC_TABLE_ADDR_BASE + u32 ((off + i) * XSDFEC_REG_WIDTH_JUMP)),
          u32 (t i))))) = (List.range len).map
          (fun i => u32 (XSDFEC_LDPC_SC_TABLE_ADDR_BASE + u32 ((off + i) * XSDFEC_REG_WIDTH_JUMP)))
      from by rw [List.map_map]; rfl]
    rw [tableAddrs_collapse _ _ _ (by unfold XSDFEC_LDPC_SC_TABLE_ADDR_BASE; omega) (by omega)]
  · rw [writeTableLoop_wr_protect]
    exact hwp

theorem xsdfec_la_table_write_ex (d : XsdfecDev) (off : Nat) (t : Nat → Nat) (len : Nat)
    (hwp : d.wr_protect = false) (hb : off + len ≤ 1023) :
    ∃ dr, xsdfec_la_table_write d off t len = (Int.ofNat len, dr) ∧
      dr.wrTrace.map Prod.fst = d.wrTrace.map Prod.fst ++
        (List.range len).map
          (fun i => XSDFEC_LDPC_LA_TABLE_ADDR_BASE + (off + i) * XSDFEC_REG_WIDTH_JUMP) ∧
      dr.wr_protect = false := by
  have hguard : ¬ (u32 (XSDFEC_REG_WIDTH_JUMP * u32 (off + len)) > XSDFEC_LA_TABLE_DEPTH) := by
    unfold u32 XSDFEC_REG_WIDTH_JUMP XSDFEC_LA_TABLE_DEPTH
    omega
  refine ⟨writeTableLoop d XSDFEC_LDPC_LA_TABLE_ADDR_BASE off t len, ?_, ?_, ?_⟩
  · unfold xsdfec_la_table_write
    rw [if_neg hguard]
  · rw [writeTableLoop_wrTrace d _ off t len hwp]
    rw [List.map_append]
    rw [show (List.map Prod.fst ((List.range len).map
        (fun i => (u32 (XSDFEC_LDPC_LA_TABLE_ADDR_BASE + u32 ((off + i) * XSDFEC_REG_WIDTH_JUMP)),
          u32 (t i))))) = (List.range len).map
          (fun i => u32 (XSDFEC_LDPC_LA_TABLE_ADDR_BASE + u32 ((off + i) * XSDFEC_REG_WIDTH_JUMP)))
      from by rw [List.map_map]; rfl]
    rw [tableAddrs_collapse _ _ _ (by unfold XSDFEC_LDPC_LA_TABLE_ADDR_BASE; omega) (by omega)]
  · rw [writeTableLoop_wr_protect]
    exact hwp

theorem xsdfec_qc_table_write_ex (d : XsdfecDev) (off : Nat) (t : Nat → Nat) (len : Nat)
    (hwp : d.wr_protect = false) (hb : off + len ≤ 8191) :
    ∃ dr, xsdfec_qc_table_write d off t len = (Int.ofNat len, dr) ∧
      dr.wrTrace.map Prod.fst = d.wrTrace.map Prod.fst ++
        (List.range len).map
          (fun i => XSDFEC_LDPC_QC_TABLE_ADDR_BASE + (off + i) * XSDFEC_REG_WIDTH_JUMP) ∧
      dr.wr_protect = false := by
  have hguard : ¬ (u32 (XSDFEC_REG_WIDTH_JUMP * u32 (off + len)) > XSDFEC_QC_TABLE_DEPTH) := by
    unfold u32 XSDFEC_REG_WIDTH_JUMP XSDFEC_QC_TABLE_DEPTH
    omega
  refine ⟨writeTableLoop d XSDFEC_LDPC_QC_TABLE_ADDR_BASE off t len, ?_, ?_, ?_⟩
  · unfold xsdfec_qc_table_write
    rw [if_neg hguard]
  · rw [writeTableLoop_wrTrace d _ off t len hwp]
    rw [List.map_append]
    rw [show (List.map Prod.fst ((List.range len).map
        (fun i => (u32 (XSDFEC_LDPC_QC_TABLE_ADDR_BASE + u32 ((off + i) * XSDFEC_REG_WIDTH_JUMP)),
          u32 (t i))))) = (List.range len).map
          (fun i => u32 (XSDFEC_LDPC_QC_TABLE_ADDR_BASE + u32 ((off + i) * XSDFEC_REG_WIDTH_JUMP)))
      from by rw [List.map_map]; rfl]
    rw [tableAddrs_collapse _ _ _ (by unfold XSDFEC_LDPC_QC_TABLE_ADDR_BASE; omega) (by omega)]
  · rw [writeTableLoop_wr_protect]
    exact hwp

/-- C4 (amended): on a successful add_code with write protection off, the
hardware writes are, in order: the four code-descriptor registers 0..3 at
base + code_id * 0x10, then the sc table at word offset sc_off (not
4 * sc_off: the source passes ldpc->sc_off unscaled, unlike la and qc)
with length nlayers, then the la table at word offset 4 * la_off with
length nlayers, then the qc table at word offset 4 * qc_off with length
nqc.  The counterexample shows the claim's "sc written at 4 * sc_off"
fails. -/
theorem c4_amended (d : XsdfecDev) (l : LdpcParams)
    (hcode : d.config.code ≠ XsdfecCode.turboCode)
    (hwp : d.wr_protect = false)
    (hcid : l.code_id ≤ 31)
    (hsc : l.sc_off + l.nlayers ≤ 255)
    (hla : 4 * l.la_off + l.nlayers ≤ 1023)
    (hqc : 4 * l.qc_off + l.nqc ≤ 8191) :
    (xsdfec_add_ldpc d l 0).1 = 0 ∧
    ((xsdfec_add_ldpc d l 0).2).wrTrace.map Prod.fst = d.wrTrace.map Prod.fst ++
      [XSDFEC_LDPC_CODE_REG0_ADDR_BASE + l.code_id * XSDFEC_LDPC_REG_JUMP,
       XSDFEC_LDPC_CODE_REG1_ADDR_BASE + l.code_id * XSDFEC_LDPC_REG_JUMP,
       XSDFEC_LDPC_CODE_REG2_ADDR_BASE + l.code_id * XSDFEC_LDPC_REG_JUMP,
       XSDFEC_LDPC_CODE_REG3_ADDR_BASE + l.code_id * XSDFEC_LDPC_REG_JUMP] ++
      (List.range l.nlayers).map
        (fun i => XSDFEC_LDPC_SC_TABLE_ADDR_BASE + (l.sc_off + i) * XSDFEC_REG_WIDTH_JUMP) ++
      (List.range l.nlayers).map
        (fun i => XSDFEC_LDPC_LA_TABLE_ADDR_BASE + (4 * l.la_off + i) * XSDFEC_REG_WIDTH_JUMP) ++
      (List.range l.nqc).map
        (fun i => XSDFEC_LDPC_QC_TABLE_ADDR_BASE + (4 * l.qc_off + i) * XSDFEC_REG_WIDTH_JUMP) := by
  unfold xsdfec_add_ldpc
  rw [if_neg (show ¬ ((0 : Nat) ≠ 0) by decide)]
  rw [if_neg hcode]
  rw [if_neg (show ¬ (d.wr_protect = true) by simp [hwp])]
  dsimp only
  obtain ⟨e1, he1, ht1, hw1⟩ := xsdfec_reg0_write_ex d l.n l.k l.code_id hcid hwp
  rw [he1]
  dsimp only
  rw [if_neg (show ¬ ((0 : Int) ≠ 0) by decide)]
  obtain ⟨e2, he2, ht2, hw2⟩ :=
    xsdfec_reg1_write_ex e1 l.psize l.no_packing l.nm l.code_id hcid hw1
  rw [he2]
  dsimp only
  rw [if_neg (show ¬ ((0 : Int) ≠ 0) by decide)]
  obtain ⟨e3, he3, ht3, hw3⟩ := xsdfec_reg2_write_ex e2 l.nlayers l.nmqc l.norm_type
    l.special_qc l.no_final_parity l.max_schedule l.code_id hcid hw2
  rw [he3]
  dsimp only
  rw [if_neg (show ¬ ((0 : Int) ≠ 0) by decide)]
  obtain ⟨e4, he4, ht4, hw4⟩ :=
    xsdfec_reg3_write_ex e3 l.sc_off l.la_off l.qc_off l.code_id hcid hw3
  rw [he4]
  dsimp only
  rw [if_neg (show ¬ ((0 : Int) ≠ 0) by decide)]
  obtain ⟨e5, he5, ht5, hw5⟩ :=
    xsdfec_sc_table_write_ex e4 l.sc_off l.sc_table l.nlayers hw4 (by omega)
  rw [he5]
  dsimp only
  rw [if_neg (show ¬ ((Int.ofNat l.nlayers) < 0) from not_lt.mpr (Int.ofNat_nonneg _))]
  obtain ⟨e6, he6, ht6, hw6⟩ :=
    xsdfec_la_table_write_ex e5 (4 * l.la_off) l.la_table l.nlayers hw5 (by omega)
  rw [he6]
  dsimp only
  rw [if_neg (show ¬ ((Int.ofNat l.nlayers) < 0) from not_lt.mpr (Int.ofNat_nonneg _))]
  obtain ⟨e7, he7, ht7, hw7⟩ :=
    xsdfec_qc_table_write_ex e6 (4 * l.qc_off) l.qc_table l.nqc hw6 (by omega)
  rw [he7]
  dsimp only
  rw [if_neg (show ¬ ((Int.ofNat l.nqc) < 0) from not_lt.mpr (Int.ofNat_nonneg _))]
  refine ⟨rfl, ?_⟩
  rw [ht7, ht6, ht5, ht4, ht3, ht2, ht1]
  simp [List.append_assoc]

/-- Descriptor for the C4 counterexample and witness: same as lC1 but with
sc_off = 1 so that the sc table write offset is observable. -/
def lC4 : LdpcParams := { lC1 with sc_off := 1 }

/-- C4 counterexample: on a successful add of lC4 (sc_off = 1), the fifth
hardware write (the first sc table word) goes to the sc base plus
sc_off * 4, not to the sc base plus (4 * sc_off) * 4: the source passes
ldpc->sc_off to the sc table write unscaled, unlike la and qc, so the
claim's "sc written at 4 * sc_off" is false. -/
theorem c4_counterexample :
    (xsdfec_add_ldpc devZero lC4 0).1 = 0 ∧
    (((xsdfec_add_ldpc devZero lC4 0).2).wrTrace.map Prod.fst).drop 4 =
      [XSDFEC_LDPC_SC_TABLE_ADDR_BASE + lC4.sc_off * XSDFEC_REG_WIDTH_JUMP,
       XSDFEC_LDPC_LA_TABLE_ADDR_BASE + (4 * lC4.la_off) * XSDFEC_REG_WIDTH_JUMP,
       XSDFEC_LDPC_QC_TABLE_ADDR_BASE + (4 * lC4.qc_off) * XSDFEC_REG_WIDTH_JUMP] ∧
    XSDFEC_LDPC_SC_TABLE_ADDR_BASE + lC4.sc_off * XSDFEC_REG_WIDTH_JUMP ≠
      XSDFEC_LDPC_SC_TABLE_ADDR_BASE + (4 * lC4.sc_off) * XSDFEC_REG_WIDTH_JUMP := by
  decide

/-- Witness for c4_amended at the concrete descriptor lC4. -/
theorem c4_amended_witness :
    (xsdfec_add_ldpc devZero lC4 0).1 = 0 ∧
    ((xsdfec_add_ldpc devZero lC4 0).2).wrTrace.map Prod.fst =
      devZero.wrTrace.map Prod.fst ++
      [XSDFEC_LDPC_CODE_REG0_ADDR_BASE + lC4.code_id * XSDFEC_LDPC_REG_JUMP,
       XSDFEC_LDPC_CODE_REG1_ADDR_BASE + lC4.code_id * XSDFEC_LDPC_REG_JUMP,
       XSDFEC_LDPC_CODE_REG2_ADDR_BASE + lC4.code_id * XSDFEC_LDPC_REG_JUMP,
       XSDFEC_LDPC_CODE_REG3_ADDR_BASE + lC4.code_id * XSDFEC_LDPC_REG_JUMP] ++
      (List.range lC4.nlayers).map
        (fun i => XSDFEC_LDPC_SC_TABLE_ADDR_BASE + (lC4.sc_off + i) * XSDFEC_REG_WIDTH_JUMP) ++
      (List.range lC4.nlayers).map
        (fun i => XSDFEC_LDPC_LA_TABLE_ADDR_BASE + (4 * lC4.la_off + i) * XSDFEC_REG_WIDTH_JUMP) ++
      (List.range lC4.nqc).map
        (fun i => XSDFEC_LDPC_QC_TABLE_ADDR_BASE + (4 * lC4.qc_off + i) * XSDFEC_REG_WIDTH_JUMP) :=
  c4_amended devZero lC4 (by decide) rfl (by decide) (by decide) (by decide) (by decide)


end XilinxSdfec
